import Mathlib

/-!
Shallow embedding of the content-description compiler of the
`interactive-presentation` repository:

* `apps/backend/app/content_loader.py` — DSL tokenizer/parser, view-camera
  resolver, geometry and animation overlay resolvers, composite-default
  materialization, `load_presentation`;
* `apps/backend/app/content_writer.py` — the serializer fragments needed here.

Python floats are modelled as `ℚ` (exact arithmetic); Python strings as Lean
`String`; Python dicts as insertion-ordered association lists with
assignment-in-place semantics; the on-disk content directory as explicit record
states.  Fallible code returns `Except`.  Every definition carries a reference
to the source lines it embeds.
-/

namespace ContentCore

/-- Decidable equality for `Except` results (core does not provide one). -/
instance instDecEqExcept {ε α : Type} [DecidableEq ε] [DecidableEq α] :
    DecidableEq (Except ε α)
  | .ok a, .ok b =>
    if h : a = b then .isTrue (h ▸ rfl)
    else .isFalse (fun hc => h (Except.ok.inj hc))
  | .error a, .error b =>
    if h : a = b then .isTrue (h ▸ rfl)
    else .isFalse (fun hc => h (Except.error.inj hc))
  | .ok _, .error _ => .isFalse (fun hc => Except.noConfusion hc)
  | .error _, .ok _ => .isFalse (fun hc => Except.noConfusion hc)

/-- The double-quote character (used by the parameter splitter). -/
def dqChar : Char := Char.ofNat 34

/-- The single-quote character (used by the serializer's `_safe_str`). -/
def sqChar : Char := Char.ofNat 39

/-- Python `a or b` on strings: `b` when `a` is empty (falsy), else `a`. -/
def orS (a b : String) : String := if a = "" then b else a

/-- Insertion-ordered association list modelling a Python `dict[str, ·]`. -/
abbrev AList (α : Type) := List (String × α)

/-- Python `d[k] = v`: update in place when the key exists, else append. -/
def alSet {α : Type} : AList α → String → α → AList α
  | [], k, v => [(k, v)]
  | (k', v') :: rest, k, v =>
    if k' = k then (k, v) :: rest else (k', v') :: alSet rest k v

/-- Python `d.get(k)`: `none` models Python `None`. -/
def alGet? {α : Type} (d : AList α) (k : String) : Option α :=
  (d.find? (fun kv => kv.1 = k)).map (·.2)

/-- Python `(d.get(k) or "")` for string-valued dicts. -/
def getS (d : AList String) (k : String) : String := (alGet? d k).getD ""

/-- Membership of a key in a Python dict (`k in d`). -/
def alHas {α : Type} (d : AList α) (k : String) : Bool := (alGet? d k).isSome

/-- `keys` of a Python dict, in insertion order. -/
def alKeys {α : Type} (d : AList α) : List String := d.map (·.1)

/-- A Python parameter dict, as produced by `parse_params`. -/
abbrev Dict := AList String

/-- Does `hay` start with `needle`? (used for Python's `in` on strings). -/
def listStarts : List Char → List Char → Bool
  | [], _ => true
  | _ :: _, [] => false
  | a :: as, b :: bs => a = b && listStarts as bs

/-- Python `needle in hay` for strings (contiguous substring test). -/
def hasSub (needle : List Char) : List Char → Bool
  | [] => listStarts needle []
  | c :: cs => listStarts needle (c :: cs) || hasSub needle (c :: cs).tail

/-- `hasSub` on `String`s. -/
def strHasSub (needle hay : String) : Bool := hasSub needle.data hay.data

/-- Python `s.lower()` (ASCII). -/
def lowerS (s : String) : String := String.mk (s.data.map Char.toLower)

/-- Remove every occurrence of a character: Python `s.replace(c, "")`. -/
def removeChar (c : Char) (s : String) : String :=
  String.mk (s.data.filter (fun ch => ch ≠ c))

/-- Replace every occurrence of a character by another:
Python `s.replace(old, new)` for one-character arguments. -/
def replaceChar (old new : Char) (s : String) : String :=
  String.mk (s.data.map (fun ch => if ch = old then new else ch))

/-- `content_loader.py` line 212, the header-line grammar
`^([a-zA-Z_]\w*)\[([^\]]+)\]\s*:?(.*)$` compiled into a scanner.
Returns `(keyword, raw parameter string, inline remainder)`. -/
def headerMatch (s : String) : Option (String × String × String) :=
  match s.data with
  | [] => none
  | c :: rest =>
    if ¬ (c.isAlpha ∨ c = '_') then none
    else
      let kwRest := rest.takeWhile (fun ch => ch.isAlphanum ∨ ch = '_')
      let afterKw := rest.dropWhile (fun ch => ch.isAlphanum ∨ ch = '_')
      match afterKw with
      | '[' :: r1 =>
        let ps := r1.takeWhile (fun ch => ch ≠ ']')
        let r2 := r1.dropWhile (fun ch => ch ≠ ']')
        match r2 with
        | ']' :: r3 =>
          if ps.isEmpty then none
          else
            let r4 := r3.dropWhile Char.isWhitespace
            let inline := match r4 with
              | ':' :: t => t
              | _ => r4
            some (String.mk (c :: kwRest), String.mk ps, String.mk inline)
        | _ => none
      | _ => none

/-- State of the quote- and bracket-aware comma splitter of `parse_params`
(`content_loader.py` lines 216-249). -/
structure SplitSt where
  buf : List Char
  inQuotes : Bool
  braceDepth : Nat
  bracketDepth : Nat
  parenDepth : Nat
  parts : List String
deriving Repr, DecidableEq

/-- Initial splitter state. -/
def SplitSt.init : SplitSt := ⟨[], false, 0, 0, 0, []⟩

/-- One character of `parse_params`' splitting loop
(`content_loader.py` lines 224-247).  `Nat` subtraction saturates at `0`,
matching the Python `max(0, depth - 1)`. -/
def splitStep (st : SplitSt) (ch : Char) : SplitSt :=
  if ch = dqChar then
    { st with inQuotes := ¬ st.inQuotes, buf := st.buf ++ [ch] }
  else
    let st :=
      if ¬ st.inQuotes then
        if ch = '{' then { st with braceDepth := st.braceDepth + 1 }
        else if ch = '}' then { st with braceDepth := st.braceDepth - 1 }
        else if ch = '[' then { st with bracketDepth := st.bracketDepth + 1 }
        else if ch = ']' then { st with bracketDepth := st.bracketDepth - 1 }
        else if ch = '(' then { st with parenDepth := st.parenDepth + 1 }
        else if ch = ')' then { st with parenDepth := st.parenDepth - 1 }
        else st
      else st
    if ch = ',' ∧ ¬ st.inQuotes ∧ st.braceDepth = 0 ∧ st.bracketDepth = 0
        ∧ st.parenDepth = 0 then
      { st with parts := st.parts ++ [(String.mk st.buf).trim], buf := [] }
    else
      { st with buf := st.buf ++ [ch] }

/-- The comma-split phase of `parse_params` (lines 223-249): run `splitStep`
over the string, then flush a non-blank trailing buffer. -/
def topSplit (s : String) : List String :=
  let st := s.data.foldl splitStep SplitSt.init
  if (String.mk st.buf).trim ≠ "" then st.parts ++ [(String.mk st.buf).trim]
  else st.parts

/-- Split a string at the first occurrence of a character, Python
`s.split(c, 1)`; `none` when the character does not occur. -/
def splitFirst (c : Char) (s : String) : Option (String × String) :=
  if (s.data.filter (fun ch => ch = c)).isEmpty then none
  else
    some (String.mk (s.data.takeWhile (fun ch => ch ≠ c)),
          String.mk ((s.data.dropWhile (fun ch => ch ≠ c)).tail))

/-- The `key=value` phase of `parse_params` (lines 251-259): fields without
`=` are dropped; a value wrapped in matching double quotes is unquoted. -/
def paramsOfParts (parts : List String) : Dict :=
  parts.foldl
    (fun out part =>
      match splitFirst '=' part with
      | none => out
      | some (k, v) =>
        let k := k.trim
        let v := v.trim
        let v :=
          if v.length ≥ 2 ∧ v.data.head? = some dqChar
              ∧ v.data.getLast? = some dqChar then
            String.mk (v.data.drop 1 |>.dropLast)
          else v
        alSet out k v)
    []

/-- `parse_params` (`content_loader.py` lines 214-260): quote- and
bracket-depth-aware splitting of a raw `[...]` parameter string into an
ordered parameter dict. -/
def parse_params (s : String) : Dict := paramsOfParts (topSplit s)

/-- Numeric value of a run of decimal digit characters. -/
def digitsVal (cs : List Char) : Nat := cs.foldl (fun a c => a * 10 + (c.toNat - 48)) 0

/-- Python `float(s)` on numeric literals: optional surrounding whitespace and
sign, decimal digits with optional fraction and optional exponent; `none`
models the `ValueError` branch.  (The `inf`/`nan`/underscore forms accepted by
Python never reach the parsers modelled here.) -/
def pyFloat? (s : String) : Option ℚ :=
  let cs := s.trim.data
  let (sign, cs) : ℚ × List Char :=
    match cs with
    | '+' :: r => (1, r)
    | '-' :: r => (-1, r)
    | _ => (1, cs)
  let ip := cs.takeWhile Char.isDigit
  let cs := cs.dropWhile Char.isDigit
  let (fp, cs) : List Char × List Char :=
    match cs with
    | '.' :: r => (r.takeWhile Char.isDigit, r.dropWhile Char.isDigit)
    | _ => ([], cs)
  if ip.isEmpty ∧ fp.isEmpty then none
  else
    let mant : ℚ := (digitsVal ip : ℚ) + (digitsVal fp : ℚ) / ((10 : ℚ) ^ fp.length)
    match cs with
    | [] => some (sign * mant)
    | e :: r =>
      if e = 'e' ∨ e = 'E' then
        let (esign, r) : ℤ × List Char :=
          match r with
          | '+' :: t => (1, t)
          | '-' :: t => (-1, t)
          | _ => (1, r)
        let ed := r.takeWhile Char.isDigit
        let rest := r.dropWhile Char.isDigit
        if ed.isEmpty ∨ ¬ rest.isEmpty then none
        else some (sign * mant * (10 : ℚ) ^ (esign * (digitsVal ed : ℤ)))
      else none

/-- Python `int(x)` on a float: truncation toward zero. -/
def pyTrunc (q : ℚ) : ℤ := if 0 ≤ q then ⌊q⌋ else ⌈q⌉

/-- Python `round(x)` (round-half-to-even, "banker's rounding"). -/
def pyRound (q : ℚ) : ℤ :=
  let f := ⌊q⌋
  let frac := q - (f : ℚ)
  if frac < 1 / 2 then f
  else if frac > 1 / 2 then f + 1
  else if f % 2 = 0 then f else f + 1

/-- Insert a string into an ascending list (code-point order, as Python
`sorted` on `str`). -/
def insertSorted (x : String) : List String → List String
  | [] => [x]
  | y :: ys => if x ≤ y then x :: y :: ys else y :: insertSorted x ys

/-- Python `sorted` on a list of strings. -/
def sortStrings (l : List String) : List String := l.foldr insertSorted []

/-- Fatal load errors.  Each constructor stands for one `raise` site of
`content_loader.py` and carries the data interpolated into the Python message:

* `invalidLine` — "Invalid line (expected keyword[...]): {raw}" (line 476)
* `missingName` — "Missing required name= in: {raw}" (line 482)
* `firstViewParams` — "First view must not specify camera params.
  Remove: {sorted keys}" (line 508)
* `missingRefView` — "Views after the first must include refView=<id>."
  (line 514)
* `unknownRefView` — "Unknown refView={ref!r}. Known: {sorted ids}" (line 517)
* `legacyViewParams` — "Legacy view camera params are no longer supported. …"
  (lines 419-423)
* `missingRefViewLoc` — "Views after the first must specify refView=<id> and
  loc=<...>. …" (lines 462-465)
* `blockOutsideView` — "Block outside of any view: {raw}" (line 537)
* `iframeMissingSrc` — "iframe requires src= in: {raw}" (line 590)
* `timerBins` — "timer[{name}] has incompatible min/max/binSize
  (span={span}, bin={bin})" (line 632)
* `unknownKeyword` — "Unknown keyword: {kw}" (line 838)
* `howDirect` — "…animations.csv uses how=direct which is no longer
  supported; use how=sudden (id={id})" (line 971)
* `howUnsupported` — "…animations.csv has unsupported how={how!r}
  (id={id}); allowed: …" (line 975)
* `invalidCompositeName` — "Invalid composite folder name: {name!r}"
  (lines 49, 117)
* `fileNotFound` — "Missing {fileName} at {path}" (lines 1026, 1028)
* `badNumber` — `ValueError` escaping a bare `float(...)`/`int(float(...))`
  conversion (e.g. lines 879, 925, 983-985)
* `noneTypeError` — `AttributeError` on `current_view["show"]` when
  `current_view` is `None` (unreachable: guarded by line 536)
* `outOfFuel` — artefact of the fuelled loop, never hit when the fuel is the
  number of remaining lines. -/
inductive PErr where
  | invalidLine (raw : String)
  | missingName (raw : String)
  | firstViewParams (keys : List String)
  | missingRefView
  | unknownRefView (refView : String) (known : List String)
  | legacyViewParams
  | missingRefViewLoc
  | blockOutsideView (raw : String)
  | iframeMissingSrc (raw : String)
  | timerBins (name : String) (span bin : ℚ)
  | unknownKeyword (kw : String)
  | howDirect (nodeId : String)
  | howUnsupported (nodeId how : String)
  | invalidCompositeName (name : String)
  | fileNotFound (fileName : String)
  | badNumber (raw : String)
  | emptySeparator
  | noneTypeError
  | outOfFuel
deriving Repr, DecidableEq

/-- Smallest `k` (up to the given fuel) with `q * 10^k` integral. -/
def decExp? (q : ℚ) : Nat → Option Nat
  | 0 => if q.den = 1 then some 0 else none
  | fuel + 1 => if q.den = 1 then some 0 else (decExp? (q * 10) fuel).map (· + 1)

/-- Model of Python `str()`/`repr()` on a float, exact for values with a short
terminating decimal expansion (the only values that reach an error message in
this development); other rationals print as `num/den`. -/
def pyFloatRepr (q : ℚ) : String :=
  if q.den = 1 then toString q.num ++ ".0"
  else
    match decExp? q 17 with
    | some k =>
      let n := (q * (10 : ℚ) ^ k).num
      let sign := if n < 0 then "-" else ""
      let ds := toString n.natAbs
      let ds := if ds.length ≤ k then String.mk (List.replicate (k + 1 - ds.length) '0') ++ ds else ds
      sign ++ String.mk (ds.data.take (ds.length - k)) ++ "." ++ String.mk (ds.data.drop (ds.length - k))
    | none => toString q.num ++ "/" ++ toString q.den

/-- Python `repr` of a list of strings (single-quoted, comma-space separated). -/
def pyListRepr (l : List String) : String :=
  let q := String.singleton sqChar
  "[" ++ String.intercalate ", " (l.map (fun s => q ++ s ++ q)) ++ "]"

/-- The Python exception message carried by each `PErr` constructor,
reproduced from the `raise` sites of `content_loader.py`.  List and float
interpolation go through `pyListRepr`/`pyFloatRepr`. -/
def pErrMsg : PErr → String
  | .invalidLine raw => "Invalid line (expected keyword[...]): " ++ raw
  | .missingName raw => "Missing required name= in: " ++ raw
  | .firstViewParams keys =>
      "First view must not specify camera params. Remove: " ++ pyListRepr keys
  | .missingRefView => "Views after the first must include refView=<id>."
  | .unknownRefView refView known =>
      "Unknown refView=" ++ String.singleton sqChar ++ refView
        ++ String.singleton sqChar ++ ". Known: " ++ pyListRepr known
  | .legacyViewParams =>
      "Legacy view camera params are no longer supported. "
        ++ "Use view[name=...,refView=<id>,loc=<right|left|up|down|topRight|topLeft|bottomRight|bottomLeft>] "
        ++ "and omit zoom/cx/cy/ref."
  | .missingRefViewLoc =>
      "Views after the first must specify refView=<id> and loc=<...>. "
        ++ "Example: view[name=view2,refView=home,loc=right]:"
  | .blockOutsideView raw => "Block outside of any view: " ++ raw
  | .iframeMissingSrc raw => "iframe requires src= in: " ++ raw
  | .timerBins name span bin =>
      "timer[" ++ name ++ "] has incompatible min/max/binSize (span="
        ++ pyFloatRepr span ++ ", bin=" ++ pyFloatRepr bin ++ ")"
  | .unknownKeyword kw => "Unknown keyword: " ++ kw
  | .howDirect nodeId =>
      "animations.csv uses how=direct which is no longer supported; "
        ++ "use how=sudden (id=" ++ nodeId ++ ")"
  | .howUnsupported nodeId how =>
      "animations.csv has unsupported how=" ++ String.singleton sqChar ++ how
        ++ String.singleton sqChar ++ " (id=" ++ nodeId ++ "); allowed: "
        ++ pyListRepr ["appear", "fade", "pixelate", "sudden"]
  | .invalidCompositeName name =>
      "Invalid composite folder name: " ++ String.singleton sqChar ++ name
        ++ String.singleton sqChar
  | .fileNotFound fileName => "Missing " ++ fileName
  | .badNumber raw => "could not convert string to float: " ++ raw
  | .emptySeparator => "empty separator"
  | .noneTypeError => "AttributeError"
  | .outOfFuel => "out of fuel"

/-- A resolved camera `{cx, cy, zoom}` (world pixels / zoom factor). -/
structure Cam where
  cx : ℚ
  cy : ℚ
  zoom : ℚ
deriving Repr, DecidableEq

/-- A `cameraSpec` record `{refView?, loc?, durationMs?}`; `none` fields model
absent dict keys. -/
structure CamSpec where
  refView : Option String := none
  loc : Option String := none
  durationMs : Option String := none
deriving Repr, DecidableEq

/-- Python truthiness of the `spec` dict (`spec if spec else None`). -/
def CamSpec.isEmptySpec (s : CamSpec) : Bool :=
  s.refView.isNone && s.loc.isNone && s.durationMs.isNone

/-- `_half_extents` (`content_loader.py` lines 342-344):
`((design_w/2)/z, (design_h/2)/z)` with the Python `zoom or 1.0` guard. -/
def half_extents (designW designH : ℚ) (cam : Cam) : ℚ × ℚ :=
  let z := if cam.zoom = 0 then 1 else cam.zoom
  ((designW / 2) / z, (designH / 2) / z)

/-- `_resolve_view_camera` (`content_loader.py` lines 398-465): reject legacy
absolute camera parameters, then translate the inherited camera by the
symbolic `loc` placement; zoom is taken from `base` unchanged (modulo the
`or 1.0` falsy guard). -/
def resolve_view_camera (designW designH : ℚ) (params : Dict) (base : Cam) :
    Except PErr (Cam × Option CamSpec) :=
  let rawRefView := (getS params "refView").trim
  let rawLoc := (getS params "loc").trim
  let rawCx := (getS params "cx").trim
  let rawCy := (getS params "cy").trim
  let rawZoom := (getS params "zoom").trim
  let rawRef := (getS params "ref").trim
  if rawCx ≠ "" ∨ rawCy ≠ "" ∨ rawZoom ≠ "" ∨ rawRef ≠ "" then
    .error .legacyViewParams
  else
    let cam : Cam :=
      { cx := base.cx, cy := base.cy, zoom := if base.zoom = 0 then 1 else base.zoom }
    let durRaw := (orS (getS params "durationMs") (getS params "duration")).trim
    let spec : CamSpec :=
      { refView := if rawRefView ≠ "" then some rawRefView else none
        loc := if rawLoc ≠ "" then some rawLoc else none
        durationMs := if durRaw ≠ "" then some durRaw else none }
    let specOpt := if spec.isEmptySpec then none else some spec
    if rawLoc ≠ "" then
      let he := half_extents designW designH cam
      let locNorm := lowerS (removeChar '-' (removeChar '_' rawLoc))
      if locNorm = "center" ∨ locNorm = "origin" then .ok (cam, specOpt)
      else
        let dx : ℚ := (if strHasSub "right" locNorm then 2 * he.1 else 0)
          - (if strHasSub "left" locNorm then 2 * he.1 else 0)
        let dy : ℚ := (if strHasSub "bottom" locNorm ∨ strHasSub "down" locNorm then 2 * he.2 else 0)
          - (if strHasSub "top" locNorm ∨ strHasSub "up" locNorm then 2 * he.2 else 0)
        .ok ({ cam with cx := cam.cx + dx, cy := cam.cy + dy }, specOpt)
    else .error .missingRefViewLoc

/-- First-view handling (`content_loader.py` lines 504-510): any parameter
other than `name` with a non-blank value is rejected; otherwise the camera is
fixed at `(0, 0, 1)`. -/
def first_view_check (params : Dict) : Except PErr Cam :=
  let extra := params.filter (fun kv => kv.1 ≠ "name" ∧ kv.2.trim ≠ "")
  if extra ≠ [] then .error (.firstViewParams (sortStrings (alKeys extra)))
  else .ok ⟨0, 0, 1⟩

/-- Subsequent-view handling (`content_loader.py` lines 511-518): mandatory
`refView`, lookup of the referenced camera, then `_resolve_view_camera`. -/
def resolve_subsequent_view (designW designH : ℚ) (viewCameras : AList Cam)
    (params : Dict) : Except PErr (Cam × Option CamSpec) :=
  let refView := (getS params "refView").trim
  if refView = "" then .error .missingRefView
  else
    match alGet? viewCameras refView with
    | none => .error (.unknownRefView refView (sortStrings (alKeys viewCameras)))
    | some base => resolve_view_camera designW designH params base

/-- `fnum` inside the timer handler (`content_loader.py` lines 615-621). -/
def fnum (v : String) (default : Option ℚ) : Option ℚ :=
  if v = "" then default
  else
    match pyFloat? v with
    | some x => some x
    | none => default

/-- Timer `min`/`max`/`binSize` compatibility validation
(`content_loader.py` lines 627-632). -/
def timer_bin_check (name : String) (minS maxS binS : Option ℚ) :
    Except PErr Unit :=
  match minS, maxS, binS with
  | some mn, some mx, some bs =>
    if bs > 0 then
      let span := mx - mn
      let bins : ℚ := if span > 0 then span / bs else 0
      if bins ≤ 0 ∨ |bins - (pyRound bins : ℚ)| > 1 / 1000000 then
        .error (.timerBins name span bs)
      else .ok ()
    else .ok ()
  | _, _, _ => .ok ()

/-- The fixed 7-color palette of `parse_choice_options` (line 287). -/
def palette : List String :=
  ["#4caf50", "#e53935", "#1e88e5", "#ab47bc", "#00bcd4", "#fdd835", "#8d6e63"]

/-- `re.sub(r"\s+", "_", ·)`: each maximal whitespace run becomes one `_`.
The boolean records whether the previous character was whitespace. -/
def collapseWsAux : List Char → Bool → List Char
  | [], _ => []
  | c :: rest, prevWs =>
    if c.isWhitespace then
      if prevWs then collapseWsAux rest true else '_' :: collapseWsAux rest true
    else c :: collapseWsAux rest false

/-- `slug` inside `parse_choice_options` (lines 291-294): collapse whitespace
to `_`, strip `[^a-zA-Z0-9_]`, fall back to `"option"`. -/
def slug (label : String) : String :=
  let s1 := String.mk (collapseWsAux label.trim.data false)
  let s2 := String.mk (s1.data.filter (fun c => c.isAlphanum ∨ c = '_'))
  orS s2 "option"

/-- Numeric-suffix disambiguation loop of `parse_choice_options`
(lines 309-313); the fuel `|seen| + 1` always suffices, so this equals the
Python `while` loop. -/
def freshIdAux (base : String) (seen : List String) : Nat → Nat → String
  | n, 0 => base ++ toString n
  | n, fuel + 1 =>
    let cand := base ++ toString n
    if cand ∈ seen then freshIdAux base seen (n + 1) fuel else cand

/-- Stable unique option id: `base`, else `base2`, `base3`, … -/
def freshId (optId : String) (seen : List String) : String :=
  if optId ∈ seen then freshIdAux optId seen 2 (seen.length + 1) else optId

/-- The quotes-only comma splitter of `parse_choice_options` (lines 271-285). -/
def splitCommaQuoted (s : String) : List String :=
  let fin := s.data.foldl
    (fun (st : List Char × Bool × List String) ch =>
      let (buf, inQ, parts) := st
      if ch = dqChar then (buf ++ [ch], ¬ inQ, parts)
      else if ch = ',' ∧ ¬ inQ then ([], inQ, parts ++ [(String.mk buf).trim])
      else (buf ++ [ch], inQ, parts))
    ([], false, [])
  if (String.mk fin.1).trim ≠ "" then fin.2.2 ++ [(String.mk fin.1).trim]
  else fin.2.2

/-- The `while s and s[0] in "{[" and s[-1] in "}]"` unwrapping loop of
`parse_choice_options` (lines 266-268); each pass shortens the string, so
string-length fuel makes this the Python loop. -/
def stripWrappingAux : Nat → String → String
  | 0, s => s
  | fuel + 1, s =>
    if s ≠ "" ∧ (s.data.head? = some '{' ∨ s.data.head? = some '[')
        ∧ (s.data.getLast? = some '}' ∨ s.data.getLast? = some ']') then
      stripWrappingAux fuel (String.mk (s.data.drop 1 |>.dropLast)).trim
    else s

/-- One parsed choice option `{id, label, color}`. -/
structure ChoiceOpt where
  id : String
  label : String
  color : String
deriving Repr, DecidableEq

/-- `parse_choice_options` (`content_loader.py` lines 262-316). -/
def parse_choice_options (raw : Option String) : List ChoiceOpt :=
  match raw with
  | none => []
  | some r =>
    if r = "" then []
    else
      let s := stripWrappingAux r.trim.length r.trim
      let parts := splitCommaQuoted s
      (parts.enum.foldl
        (fun (st : List String × List ChoiceOpt) ip =>
          let (seen, opts) := st
          let (idx, part) := ip
          if part = "" then st
          else
            let (labRaw, colRaw) :=
              match splitFirst ':' part with
              | some (a, b) => (a, b)
              | none => (part, "")
            let label := labRaw.trim
            let color := orS colRaw.trim (palette.getD (idx % palette.length) "")
            if label = "" then st
            else
              let optId := freshId (slug label) seen
              (seen ++ [optId], opts ++ [⟨optId, label, color⟩]))
        ([], [])).2

/-! ### Composite folders and their on-demand defaults -/

/-- The files of one composite folder; `none` models an absent file.
`bulletsGeometries`/`wheelGeometries` are the nested
`bullets/geometries.csv` and `wheel/geometries.csv` used by choices. -/
structure CompFolder where
  elements : Option String := none
  geometries : Option String := none
  animations : Option String := none
  bulletsGeometries : Option String := none
  wheelGeometries : Option String := none
deriving Repr, DecidableEq

/-- The composite-related portion of the presentation directory:
`legacy` maps a name to a flat `presentations/<pres>/<name>/` folder,
`groups` to `presentations/<pres>/groups/<name>/`.  A key being present
models the directory existing (possibly with no files yet). -/
structure Fs where
  legacy : AList CompFolder := []
  groups : AList CompFolder := []
deriving Repr, DecidableEq

/-- Python `del d[k]` / move-away of a directory. -/
def alRemove {α : Type} (d : AList α) (k : String) : AList α :=
  d.filter (fun kv => kv.1 ≠ k)

/-- The folder-name guard `^[a-zA-Z0-9_][a-zA-Z0-9_\-]{0,63}$`
(`content_loader.py` lines 48, 116). -/
def validCompositeName (s : String) : Bool :=
  match s.data with
  | [] => false
  | c :: rest =>
    (c.isAlphanum || c = '_') && rest.length ≤ 63
      && rest.all (fun ch => ch.isAlphanum || ch = '_' || ch = '-')

/-- Default `elements.txt` written by `_ensure_timer_composite_defaults`
(`content_loader.py` lines 73-93). -/
def timer_default_elements : String :=
  "# timer composite elements (draft)\n"
  ++ "# Delete the whole `groups/<name>/` folder to regenerate defaults.\n"
  ++ "# Args passed to timer[...] can be used as \x7barg\x7d placeholders here.\n"
  ++ "\n"
  ++ "# Default labels (editable in composite mode):\n"
  ++ "text[name=x_label]: Time (s)\n"
  ++ "text[name=y_label]: Procentage (%)\n"
  ++ "\n"
  ++ "# Stats label (auto-updated via \x7b\x7b...\x7d\x7d binding, editable/positionable):\n"
  ++ "text[name=stats]: $\\mu=\x7b\x7bmean\x7d\x7d\\,\\mathrm\x7bs\x7d\\quad \\sigma=\x7b\x7bsigma\x7d\x7d\\,\\mathrm\x7bs\x7d\\quad \\mathrm\x7bcount\x7d=\x7b\x7bcount\x7d\x7d$\n"
  ++ "\n"
  ++ "# Default arrows (editable in composite mode):\n"
  ++ "arrow[name=x_axis,from=(0,0),to=(1.05,0),color=white,width=0.006]\n"
  ++ "arrow[name=y_axis,from=(0,0),to=(0,1.05),color=white,width=0.006]\n"

/-- Default `geometries.csv` written by `_ensure_timer_composite_defaults`
(`content_loader.py` lines 94-104). -/
def timer_default_geometries : String :=
  "id,view,x,y,w,h,rotationDeg,anchor,align\n"
  ++ "x_label,timer,0.50,1.06,0.50,0.08,0,topCenter,center\n"
  ++ "y_label,timer,-0.15627517456611062,0.05482153612994739,0.40,0.08,-90,centerRight,center\n"
  ++ "stats,timer,0.5028738858079436,0.055646919385237144,0.70,0.08,0,topCenter,center\n"
  ++ "x_axis,timer,0,0,1,1,0,topLeft,\n"
  ++ "y_axis,timer,0,0,1,1,0,topLeft,\n"

/-- The `animations.csv` header row (also the default animations file,
`content_loader.py` lines 105-108). -/
def animations_csv_header : String := "id,when,how,from,durationMs,delayMs\n"

/-- `_ensure_timer_composite_defaults` (`content_loader.py` lines 41-108) as a
transformer of the composite filesystem state: validate the folder name,
migrate a legacy flat folder, create the folder, and — when any of the three
required files is missing — (re)write all three default files.  The
`shutil.move`-failure fallback (lines 60-62) is not modelled: the move is
deterministic here. -/
def ensure_timer_composite_defaults (fs : Fs) (compositeDir : String) :
    Except PErr Fs :=
  if ¬ validCompositeName compositeDir then
    .error (.invalidCompositeName compositeDir)
  else
    let fs :=
      match alGet? fs.legacy compositeDir, alGet? fs.groups compositeDir with
      | some legacyFolder, none =>
        { fs with legacy := alRemove fs.legacy compositeDir,
                  groups := alSet fs.groups compositeDir legacyFolder }
      | _, _ => fs
    let folder := (alGet? fs.groups compositeDir).getD {}
    let fs := { fs with groups := alSet fs.groups compositeDir folder }
    if folder.elements.isSome ∧ folder.geometries.isSome
        ∧ folder.animations.isSome then
      .ok fs
    else
      let newFolder : CompFolder :=
        { folder with
            elements := some timer_default_elements,
            geometries := some timer_default_geometries,
            animations := some animations_csv_header }
      .ok { fs with groups := alSet fs.groups compositeDir newFolder }

/-- Default `elements.txt` written by `_ensure_choices_composite_defaults`
(`content_loader.py` lines 127-133). -/
def choices_default_elements : String :=
  "# choices composite elements (draft)\n"
  ++ "# This composite controls the internal layout of the choices node.\n"
  ++ "# Sub-ids used by the frontend: buttons, bullets, wheel\n"

/-- Default top-level `geometries.csv` for a choices composite
(`content_loader.py` lines 144-151). -/
def choices_default_geometries : String :=
  "id,view,x,y,w,h,rotationDeg,anchor,align,parent\n"
  ++ "bullets,composite,0.00,0.00,0.46,1.00,0,topLeft,left,\n"
  ++ "wheel,composite,0.52,0.00,0.48,1.00,0,topLeft,center,\n"

/-- Default `bullets/geometries.csv` for a choices composite
(`content_loader.py` lines 152-159). -/
def choices_default_bullets_geometries : String :=
  "id,view,x,y,w,h,rotationDeg,anchor,align,parent\n"
  ++ "buttons,composite,0.50,-0.10,1.00,0.18,0,topCenter,center,\n"
  ++ "bullets,composite,0.00,0.00,1.00,1.00,0,topLeft,left,\n"

/-- Default `wheel/geometries.csv` for a choices composite
(`content_loader.py` lines 160-165). -/
def choices_default_wheel_geometries : String :=
  "id,view,x,y,w,h,rotationDeg,anchor,align,parent\n"
  ++ "pie,composite,0.50,0.50,1.00,1.00,0,centerCenter,center,\n"

/-- `_ensure_choices_composite_defaults` (`content_loader.py` lines 111-165):
validate the folder name, create the folder and its `bullets`/`wheel`
sub-folders, and write each default file only when that file is missing. -/
def ensure_choices_composite_defaults (fs : Fs) (compositeDir : String) :
    Except PErr Fs :=
  if ¬ validCompositeName compositeDir then
    .error (.invalidCompositeName compositeDir)
  else
    let folder := (alGet? fs.groups compositeDir).getD {}
    let folder :=
      { folder with
          elements := some (folder.elements.getD choices_default_elements),
          geometries := some (folder.geometries.getD choices_default_geometries),
          bulletsGeometries :=
            some (folder.bulletsGeometries.getD choices_default_bullets_geometries),
          wheelGeometries :=
            some (folder.wheelGeometries.getD choices_default_wheel_geometries) }
    .ok { fs with groups := alSet fs.groups compositeDir folder }

/-! ### Scene-graph records -/

/-- A view dict.  `showList` models the `"show"` key (`show` is a Lean
keyword); `camera = none` models the screen views, which carry no camera;
`screen` models the presence of the `"screen": True` key. -/
structure ViewRec where
  id : String
  camera : Option Cam := none
  showList : List String := []
  screen : Bool := false
  cameraSpec : Option CamSpec := none
  transitionMs : Option ℤ := none
deriving Repr, DecidableEq

/-- An animation record `{kind, durationMs?, delayMs?, from?, borderFrac?}`;
`fromDir` models the `"from"` key (`from` is a Lean keyword). -/
structure Anim where
  kind : String
  durationMs : Option ℤ := none
  delayMs : Option ℤ := none
  fromDir : Option String := none
  borderFrac : Option ℚ := none
deriving Repr, DecidableEq

/-- A transform dict `{x, y, w, h, rotationDeg?, anchor?}`. -/
structure Transform where
  x : ℚ
  y : ℚ
  w : ℚ
  h : ℚ
  rotationDeg : Option ℚ := none
  anchor : Option String := none
deriving Repr, DecidableEq

/-- The type-specific payload of a node, one constructor per node `type`
produced by `_parse_presentation_txt`.  The timer's editor-only enrichment
fields (`elementsText`, `compositeGeometries`, lines 651-702, and the choices
`compositeGeometriesByPath`, lines 740-776) are consumed only by the editor
UI and are not part of this model; no claim concerns them. -/
inductive NodePayload where
  | text (content : String)
  | qr (url : String)
  | image (src : String)
  | htmlFrame (src : String)
  | bullets (items : List String) (style : String)
  | table (rows : List (List String)) (delim : String)
  | group
  | timer (showTime : Bool) (barColor lineColor : String) (lineWidth : Option ℚ)
      (stat : String) (minS maxS binSizeS : Option ℚ) (compositeDir : String)
      (args : Dict)
  | choices (question : String) (chart : String) (bulletStyle : String)
      (options : List ChoiceOpt)
deriving Repr, DecidableEq

/-- The `"type"` string of a payload. -/
def NodePayload.typeName : NodePayload → String
  | .text _ => "text"
  | .qr _ => "qr"
  | .image _ => "image"
  | .htmlFrame _ => "htmlFrame"
  | .bullets _ _ => "bullets"
  | .table _ _ => "table"
  | .group => "group"
  | .timer .. => "timer"
  | .choices .. => "choices"

/-- A node dict: shared header fields plus the typed payload.  `none` models
an absent key (keys such as `transform`, `visible`, `appear` are only added
by the `load_presentation` merge phase). -/
structure NodeRec where
  id : String
  space : String
  payload : NodePayload
  bgColor : Option String := none
  bgAlpha : Option ℚ := none
  borderRadius : Option ℚ := none
  transform : Option Transform := none
  parentId : Option String := none
  align : Option String := none
  vAlign : Option String := none
  fontPx : Option ℚ := none
  appear : Option Anim := none
  disappear : Option Anim := none
  visible : Option Bool := none
deriving Repr, DecidableEq

/-- `_apply_style_params` (`content_loader.py` lines 325-340): optional
`bgColor`/`bg`, `bgAlpha`, `borderRadius`/`rounded` attributes; malformed
numbers are silently ignored. -/
def apply_style_params (node : NodeRec) (params : Dict) : NodeRec :=
  let bg := (orS (getS params "bgColor") (getS params "bg")).trim
  let node := if bg ≠ "" then { node with bgColor := some bg } else node
  let baRaw := (getS params "bgAlpha").trim
  let node :=
    if baRaw ≠ "" then
      match pyFloat? baRaw with
      | some v => { node with bgAlpha := some v }
      | none => node
    else node
  let brRaw := (orS (getS params "borderRadius") (getS params "rounded")).trim
  if brRaw ≠ "" then
    match pyFloat? brRaw with
    | some v => { node with borderRadius := some v }
    | none => node
  else node

/-! ### The DSL block parser -/

/-- Python `"\n".join(...)` then `.strip("\n")`. -/
def trimNl (s : String) : String :=
  String.mk (((s.data.dropWhile (· = '\n')).reverse.dropWhile (· = '\n')).reverse)

/-- Python `str.splitlines()` for `\n`-separated text (the only line
separator occurring in these files). -/
def pySplitlines (s : String) : List String :=
  if s = "" then []
  else
    let parts := s.splitOn "\n"
    if s.endsWith "\n" then parts.dropLast else parts

/-- Multiline-body consumption for `text` (lines 545-555) and `choices`
(lines 714-724): keep blank/comment lines verbatim, stop at the next header
line.  Returns `(body lines, remaining lines)`. -/
def takeTextBody : List String → List String × List String
  | [] => ([], [])
  | l :: rest =>
    let peek := l.trim
    if peek = "" ∨ peek.startsWith "#" then
      let (b, r) := takeTextBody rest
      (l :: b, r)
    else if (headerMatch peek).isSome then ([], l :: rest)
    else
      let (b, r) := takeTextBody rest
      (l :: b, r)

/-- `re.sub(r"^[-*+]\s+", "", ·)`: one leading list marker plus at least one
whitespace character is removed, together with the whole whitespace run. -/
def stripBulletMarker (s : String) : String :=
  match s.data with
  | c :: d :: rest =>
    if (c = '-' ∨ c = '*' ∨ c = '+') ∧ d.isWhitespace then
      String.mk ((d :: rest).dropWhile Char.isWhitespace)
    else s
  | _ => s

/-- Body consumption for `bullets` (lines 782-794): blank/comment lines are
skipped, items are stripped and list markers removed. -/
def takeBulletsBody : List String → List String × List String
  | [] => ([], [])
  | l :: rest =>
    let peek := l.trim
    if peek = "" ∨ peek.startsWith "#" then takeBulletsBody rest
    else if (headerMatch peek).isSome then ([], l :: rest)
    else
      let (b, r) := takeBulletsBody rest
      (stripBulletMarker l.trim :: b, r)

/-- Body consumption for `table` (lines 810-819): each body line splits on
the configured delimiter into stripped cells.  Python raises `ValueError` on
an empty separator. -/
def takeTableBody (delim : String) :
    List String → Except PErr (List (List String) × List String)
  | [] => .ok ([], [])
  | l :: rest =>
    let peek := l.trim
    if peek = "" ∨ peek.startsWith "#" then takeTableBody delim rest
    else if (headerMatch peek).isSome then .ok ([], l :: rest)
    else if delim = "" then .error .emptySeparator
    else
      match takeTableBody delim rest with
      | .error e => .error e
      | .ok (rows, r) => .ok (((l.splitOn delim).map (·.trim)) :: rows, r)

/-- Interpreter state of `_parse_presentation_txt`'s main loop (the local
mutable variables of lines 204-347).  `currentView` is an index into `views`,
modelling the Python object reference; `fs` is threaded through the composite
materializers invoked by `timer`/`choices` blocks. -/
structure ParseSt where
  views : List ViewRec := []
  nodes : List NodeRec := []
  initialViewId : Option String := none
  currentView : Option Nat := none
  screenMode : Bool := false
  screenNodes : List String := []
  screenCounter : Nat := 0
  viewCameras : AList Cam := []
  prevCam : Cam := ⟨0, 0, 1⟩
  fs : Fs := {}
deriving Repr

/-- Python `nodes_by_id[name] = {...}`: replace in place, else append
(insertion order is preserved; `list(nodes_by_id.values())` is the final
node order). -/
def upsertNode : List NodeRec → NodeRec → List NodeRec
  | [], n => [n]
  | m :: rest, n => if m.id = n.id then n :: rest else m :: upsertNode rest n

/-- `current_view["show"].append(name)` on the view at index `i`. -/
def addShow (views : List ViewRec) (i : Nat) (name : String) : List ViewRec :=
  match views.get? i with
  | some v => views.set i { v with showList := v.showList ++ [name] }
  | none => views

/-- `if current_view: current_view["show"].append(name)
else: screen_nodes.add(name)` (e.g. lines 561-564). -/
def showOrScreen (st : ParseSt) (name : String) : ParseSt :=
  match st.currentView with
  | some i => { st with views := addShow st.views i name }
  | none => { st with screenNodes := st.screenNodes ++ [name] }

/-- The unguarded `current_view["show"].append(name)` of the `qr`, `timer`
and `choices` handlers (lines 572, 704, 777); with `current_view = None`
Python would raise, but the guard at line 536 makes that unreachable. -/
def showStrict (st : ParseSt) (name : String) : Except PErr ParseSt :=
  match st.currentView with
  | some i => .ok { st with views := addShow st.views i name }
  | none => .error .noneTypeError

/-- The main loop of `_parse_presentation_txt` (lines 467-838), one keyword
handler per block type.  The fuel is the number of remaining lines; every
iteration consumes at least the header line, so `lines.length` fuel makes
this total function the Python `while` loop. -/
def parse_loop (designW designH : ℚ) :
    Nat → List String → ParseSt → Except PErr ParseSt
  | _, [], st => .ok st
  | 0, _ :: _, _ => .error .outOfFuel
  | fuel + 1, raw :: rest, st =>
    let stripped := raw.trim
    if stripped = "" ∨ stripped.startsWith "#" then
      parse_loop designW designH fuel rest st
    else
      match headerMatch stripped with
      | none => .error (.invalidLine raw)
      | some (kw, paramsRaw, inlineRaw) =>
        let params := parse_params paramsRaw
        let name := getS params "name"
        if name = "" then .error (.missingName raw)
        else
          let inlineAfter := inlineRaw.trim
          let hasColon := stripped.endsWith ":" ∧ inlineAfter = ""
          if kw = "screen" then
            let v : ViewRec :=
              { id := orS name ("screen_" ++ toString (st.screenCounter + 1)),
                screen := true }
            parse_loop designW designH fuel rest
              { st with screenMode := true,
                        screenCounter := st.screenCounter + 1,
                        currentView := some st.views.length,
                        views := st.views ++ [v] }
          else if kw = "view" then
            let st := { st with screenMode := false }
            match st.views.enum.find? (fun iv => iv.2.id == name) with
            | some (i, _) =>
              parse_loop designW designH fuel rest
                { st with currentView := some i,
                          prevCam := (alGet? st.viewCameras name).getD st.prevCam }
            | none =>
              let camSpecE : Except PErr (Cam × Option CamSpec) :=
                if st.initialViewId.isNone then
                  (first_view_check params).map (fun c => (c, none))
                else resolve_subsequent_view designW designH st.viewCameras params
              match camSpecE with
              | .error e => .error e
              | .ok (cam, camSpec) =>
                let v : ViewRec := { id := name, camera := some cam, cameraSpec := camSpec }
                let v :=
                  match camSpec with
                  | some cs =>
                    let durRaw := (cs.durationMs.getD "").trim
                    if durRaw ≠ "" then
                      match pyFloat? durRaw with
                      | some q => { v with transitionMs := some (pyTrunc q) }
                      | none => v
                    else v
                  | none => v
                parse_loop designW designH fuel rest
                  { st with currentView := some st.views.length,
                            views := st.views ++ [v],
                            initialViewId :=
                              if st.initialViewId.isNone then some name
                              else st.initialViewId,
                            viewCameras := alSet st.viewCameras name cam,
                            prevCam := cam }
          else if st.currentView.isNone ∧ ¬ st.screenMode then
            .error (.blockOutsideView raw)
          else if kw = "text" then
            let (body, rest') := if hasColon then takeTextBody rest else ([], rest)
            let contentLines := (if inlineAfter ≠ "" then [inlineAfter] else []) ++ body
            let text := trimNl (String.intercalate "\n" contentLines)
            let node : NodeRec :=
              { id := name, space := if st.screenMode then "screen" else "world",
                payload := .text text }
            let node := apply_style_params node params
            parse_loop designW designH fuel rest'
              (showOrScreen { st with nodes := upsertNode st.nodes node } name)
          else if kw = "qr" then
            let node : NodeRec :=
              { id := name, space := "world",
                payload := .qr ((alGet? params "url").getD "/join") }
            match showStrict { st with nodes := upsertNode st.nodes node } name with
            | .error e => .error e
            | .ok st' => parse_loop designW designH fuel rest st'
          else if kw = "image" then
            let src := orS (orS (getS params "src") (getS params "file"))
              ("/media/" ++ name ++ ".png")
            let space := orS (orS (getS params "space") "world").trim "world"
            let node : NodeRec :=
              { id := name, space := if st.screenMode then "screen" else space,
                payload := .image src }
            let node := apply_style_params node params
            parse_loop designW designH fuel rest
              (showOrScreen { st with nodes := upsertNode st.nodes node } name)
          else if kw = "iframe" then
            let src := getS params "src"
            if src = "" then .error (.iframeMissingSrc raw)
            else
              let node : NodeRec :=
                { id := name, space := if st.screenMode then "screen" else "world",
                  payload := .htmlFrame src }
              let node := apply_style_params node params
              parse_loop designW designH fuel rest
                (showOrScreen { st with nodes := upsertNode st.nodes node } name)
          else if kw = "timer" then
            let fs' :=
              match ensure_timer_composite_defaults st.fs name with
              | .ok f => f
              | .error _ => st.fs
            let st := { st with fs := fs' }
            let showTime := (orS (getS params "showTime") "0").trim
            let barColor := (orS (getS params "barColor") "orange").trim
            let lineColor := (orS (getS params "lineColor") "green").trim
            let lineWRaw := (getS params "lineWidth").trim
            let stat := (orS (getS params "stat") "gaussian").trim
            let minRaw := (getS params "min").trim
            let maxRaw := (getS params "max").trim
            let binRaw := (getS params "binSize").trim
            let minS := fnum minRaw none
            let maxS := fnum maxRaw none
            let binS := fnum binRaw none
            let lineW := fnum lineWRaw none
            match timer_bin_check name minS maxS binS with
            | .error e => .error e
            | .ok _ =>
              let showTimeB := showTime = "1"
                ∨ lowerS showTime ∈ ["true", "yes", "on"]
              let node : NodeRec :=
                { id := name, space := "world",
                  payload := .timer showTimeB barColor lineColor lineW stat
                    minS maxS binS name
                    (params.filter (fun kv => kv.1 ≠ "name")) }
              match showStrict { st with nodes := upsertNode st.nodes node } name with
              | .error e => .error e
              | .ok st' => parse_loop designW designH fuel rest st'
          else if kw = "choices" then
            let fs' :=
              match ensure_choices_composite_defaults st.fs name with
              | .ok f => f
              | .error _ => st.fs
            let st := { st with fs := fs' }
            let (body, rest') := if hasColon then takeTextBody rest else ([], rest)
            let question := trimNl (String.intercalate "\n" body)
            let chartRaw := (orS (orS (getS params "type") (getS params "chart")) "pieChart").trim
            let chart := if strHasSub "pie" (lowerS chartRaw) then "pie" else "pie"
            let bulletStyle := orS ((orS (getS params "bullets") "A").trim) "A"
            let options := parse_choice_options (alGet? params "choices")
            let node : NodeRec :=
              { id := name, space := "world",
                payload := .choices question chart bulletStyle options }
            match showStrict { st with nodes := upsertNode st.nodes node } name with
            | .error e => .error e
            | .ok st' => parse_loop designW designH fuel rest' st'
          else if kw = "bullets" then
            let (items, rest') := if hasColon then takeBulletsBody rest else ([], rest)
            let style := orS ((orS (orS (getS params "type") (getS params "bullets")) "A").trim) "A"
            let style := if style = "I" then "X" else style
            let node : NodeRec :=
              { id := name, space := if st.screenMode then "screen" else "world",
                payload := .bullets items style }
            let node := apply_style_params node params
            parse_loop designW designH fuel rest'
              (showOrScreen { st with nodes := upsertNode st.nodes node } name)
          else if kw = "table" then
            let delim := (alGet? params "delim").getD ";"
            let bodyE := if hasColon then takeTableBody delim rest else .ok ([], rest)
            match bodyE with
            | .error e => .error e
            | .ok (rows, rest') =>
              let node : NodeRec :=
                { id := name, space := if st.screenMode then "screen" else "world",
                  payload := .table rows delim }
              let node := apply_style_params node params
              parse_loop designW designH fuel rest'
                (showOrScreen { st with nodes := upsertNode st.nodes node } name)
          else if kw = "group" then
            let node : NodeRec :=
              { id := name, space := if st.screenMode then "screen" else "world",
                payload := .group }
            let node := apply_style_params node params
            parse_loop designW designH fuel rest
              (showOrScreen { st with nodes := upsertNode st.nodes node } name)
          else .error (.unknownKeyword kw)

/-- The parsed-DSL result of `_parse_presentation_txt` (lines 845-850). -/
structure Meta where
  id : String
  initialViewId : String
  views : List ViewRec
  nodes : List NodeRec
deriving Repr, DecidableEq

/-- `_parse_presentation_txt` (`content_loader.py` lines 182-850).
`content = none` models a missing `presentation.pr`/`presentation.txt`
(the early return at lines 209-210).  Returns the parsed meta and the
composite filesystem state after any materializations. -/
def parse_presentation_txt (designW designH : ℚ) (content : Option String)
    (fs : Fs) : Except PErr (Meta × Fs) :=
  match content with
  | none =>
    .ok ({ id := "default", initialViewId := "home", views := [], nodes := [] }, fs)
  | some text =>
    let lines := pySplitlines text
    match parse_loop designW designH lines.length lines { fs := fs } with
    | .error e => .error e
    | .ok st =>
      let (views, initial) :=
        if st.views = [] then
          ([⟨"home", some ⟨0, 0, 1⟩, st.nodes.map (·.id), false, none, none⟩],
           (some "home" : Option String))
        else (st.views, st.initialViewId)
      .ok ({ id := "default", initialViewId := initial.getD "home",
             views := views, nodes := st.nodes }, st.fs)

/-! ### Geometry and animation overlays -/

/-- Row dicts of `csv.DictReader` for quote-free CSV content: the header
columns zipped with each line's cells.  A missing trailing cell models the
`None` restval (`alGet?` yields `none`), extra cells are dropped (restkey
`None`), and blank lines are skipped, as `DictReader` does. -/
def csvRows (content : String) : List Dict :=
  match pySplitlines content with
  | [] => []
  | header :: body =>
    let keys := header.splitOn ","
    (body.filter (fun l => l ≠ "")).map (fun line => keys.zip (line.splitOn ","))

/-- The `num` helper of `_parse_geometries_csv` (lines 877-879):
`float(raw) if raw else default`, where a malformed numeral raises. -/
def numField (row : Dict) (key : String) (default : ℚ) : Except PErr ℚ :=
  let raw := (getS row key).trim
  if raw = "" then .ok default
  else
    match pyFloat? raw with
    | some v => .ok v
    | none => .error (.badNumber raw)

/-- One resolved geometry record (the `g` dict of lines 913-937). -/
structure Geom where
  space : String
  view : String
  transform : Transform
  parentId : Option String := none
  fontPx : Option ℚ := none
  align : Option String := none
  vAlign : Option String := none
deriving Repr, DecidableEq

/-- Row view resolution (line 889):
`(row.get("view") or "").strip() or node_view_hint.get(node_id) or "home"`. -/
def rowViewId (nodeViewHint : AList String) (row : Dict) (nodeId : String) :
    String :=
  orS (orS (getS row "view").trim ((alGet? nodeViewHint nodeId).getD "")) "home"

/-- View lookup with `home` fallback (line 891); the final fallback dict
carries only a default camera. -/
def rowView (viewsById : AList ViewRec) (viewId : String) : ViewRec :=
  match alGet? viewsById viewId with
  | some v => v
  | none =>
    match alGet? viewsById "home" with
    | some v => v
    | none => { id := "", camera := some ⟨0, 0, 1⟩ }

/-- `view.get("camera") or {cx: 0, cy: 0, zoom: 1}` (line 892). -/
def rowCam (v : ViewRec) : Cam := v.camera.getD ⟨0, 0, 1⟩

/-- One row of `_parse_geometries_csv`'s loop (lines 884-939): rows with a
blank id are skipped; a row with a non-empty `parent` stores `x,y,w,h` as-is;
otherwise they convert to world pixels via the resolved view's camera center
and `designHeight`. -/
def process_geom_row (viewsById : AList ViewRec) (nodeViewHint : AList String)
    (designH : ℚ) (row : Dict) : Except PErr (Option (String × Geom)) := do
  let nodeId := (getS row "id").trim
  if nodeId = "" then return none
  let viewId := rowViewId nodeViewHint row nodeId
  let parentId := (getS row "parent").trim
  let view := rowView viewsById viewId
  let cam := rowCam view
  let xn ← numField row "x" 0
  let yn ← numField row "y" 0
  let wn ← numField row "w" (1/5)
  let hn ← numField row "h" (1/10)
  let fontH ← numField row "fontH" (-1)
  let t : Transform :=
    if parentId ≠ "" then { x := xn, y := yn, w := wn, h := hn }
    else
      { x := cam.cx + xn * designH, y := cam.cy + yn * designH,
        w := wn * designH, h := hn * designH }
  let rotRaw := (getS row "rotationDeg").trim
  let rot ←
    if rotRaw ≠ "" then
      match pyFloat? rotRaw with
      | some v => pure (some v)
      | none => Except.error (.badNumber rotRaw)
    else pure none
  let anchorRaw := (getS row "anchor").trim
  let alignRaw := (getS row "align").trim
  let vAlignRaw := (orS (getS row "vAlign") (getS row "valign")).trim
  return some (nodeId,
    { space := if view.screen then "screen" else "world",
      view := viewId,
      transform := { t with rotationDeg := rot,
                            anchor := if anchorRaw ≠ "" then some anchorRaw else none },
      parentId := if parentId ≠ "" then some parentId else none,
      fontPx := if fontH ≥ 0 then some (fontH * designH) else none,
      align := if alignRaw ≠ "" then some alignRaw else none,
      vAlign := if vAlignRaw ≠ "" then some vAlignRaw else none })

/-- `_parse_geometries_csv` (`content_loader.py` lines 853-941) on the file's
content (existence is checked by `load_presentation` beforehand); the unused
`design_w` parameter is dropped. -/
def parse_geometries_csv (viewsById : AList ViewRec) (nodeViewHint : AList String)
    (designH : ℚ) (content : String) : Except PErr (AList Geom) :=
  (csvRows content).foldlM
    (fun out row => do
      match ← process_geom_row viewsById nodeViewHint designH row with
      | none => pure out
      | some (nodeId, g) => pure (alSet out nodeId g))
    []

/-- One row of `_parse_animations_csv`'s loop (lines 960-1010): returns
`none` when the row is silently dropped, else `(id, when, anim record)`. -/
def process_anim_row (row : Dict) : Except PErr (Option (String × String × Anim)) := do
  let nodeId := (getS row "id").trim
  if nodeId = "" then return none
  let whenV := lowerS (getS row "when").trim
  let howV := orS (lowerS (getS row "how").trim) "none"
  if howV = "none" ∨ (whenV ≠ "enter" ∧ whenV ≠ "exit") then return none
  if howV = "direct" then Except.error (.howDirect nodeId)
  else if ¬ (howV = "sudden" ∨ howV = "fade" ∨ howV = "pixelate" ∨ howV = "appear") then
    Except.error (.howUnsupported nodeId howV)
  else
    let dur := (getS row "durationMs").trim
    let delay := (getS row "delayMs").trim
    let a : Anim := { kind := howV }
    let a ←
      if dur ≠ "" then
        match pyFloat? dur with
        | some q => pure { a with durationMs := some (pyTrunc q) }
        | none => Except.error (.badNumber dur)
      else pure a
    let a ←
      if delay ≠ "" then
        match pyFloat? delay with
        | some q => pure { a with delayMs := some (pyTrunc q) }
        | none => Except.error (.badNumber delay)
      else pure a
    let fromRaw := (getS row "from").trim
    let a :=
      if fromRaw ≠ "" then
        match splitFirst ':' fromRaw with
        | some (dirPart, borderPart) =>
          let dirPart := dirPart.trim
          let borderPart := borderPart.trim
          let a := if dirPart ≠ "" then { a with fromDir := some dirPart } else a
          if borderPart ≠ "" then
            match pyFloat? borderPart with
            | some v => { a with borderFrac := some v }
            | none => a
          else a
        | none => { a with fromDir := some fromRaw }
      else a
    return some (nodeId, whenV, a)

/-- The per-node `{appear?, disappear?}` animation entry. -/
structure AnimPair where
  appear : Option Anim := none
  disappear : Option Anim := none
deriving Repr, DecidableEq

/-- `_parse_animations_csv` (`content_loader.py` lines 944-1012) on the
file's content: the per-node animation map plus the flat, file-ordered
`(id, when)` cue list. -/
def parse_animations_csv (content : String) :
    Except PErr (AList AnimPair × List (String × String)) :=
  (csvRows content).foldlM
    (fun (acc : AList AnimPair × List (String × String)) row => do
      match ← process_anim_row row with
      | none => pure acc
      | some (nodeId, whenV, a) =>
        let pair := (alGet? acc.1 nodeId).getD {}
        let pair :=
          if whenV = "enter" then { pair with appear := some a }
          else { pair with disappear := some a }
        pure (alSet acc.1 nodeId pair, acc.2 ++ [(nodeId, whenV)]))
    ([], [])

/-! ### Defaults and `load_presentation` -/

/-- The decoded `defaults.json` object (`_load_defaults` models JSON decoding
at the already-decoded level; a missing or malformed file is `none`, which
yields the full hardcoded fallback exactly as the `except` branch does). -/
structure DefaultsObj where
  designWidth : Option ℚ := none
  designHeight : Option ℚ := none
  viewTransitionMs : Option ℤ := none
  pixelateSteps : Option ℤ := none
deriving Repr, DecidableEq

/-- The resolved presentation defaults. -/
structure Defaults where
  designWidth : ℚ
  designHeight : ℚ
  viewTransitionMs : ℤ
  pixelateSteps : ℤ
deriving Repr, DecidableEq

/-- `_load_defaults` (`content_loader.py` lines 22-38). -/
def load_defaults : Option DefaultsObj → Defaults
  | none => ⟨1920, 1080, 4000, 20⟩
  | some o =>
    ⟨o.designWidth.getD 1920, o.designHeight.getD 1080,
     o.viewTransitionMs.getD 4000, o.pixelateSteps.getD 20⟩

/-- The files of one presentation directory; `none` models an absent file. -/
structure PresDir where
  presentationPr : Option String := none
  presentationTxt : Option String := none
  geometriesCsv : Option String := none
  animationsCsv : Option String := none
  defaultsJson : Option DefaultsObj := none
  comp : Fs := {}
deriving Repr

/-- The assembled scene graph (`payload` of lines 1098-1105). -/
structure Payload where
  id : String
  nodes : List NodeRec
  initialViewId : String
  views : List ViewRec
  animationCues : List (String × String)
  defaults : Defaults
deriving Repr, DecidableEq

/-- The per-type fallback boxes for nodes without a geometry row
(`content_loader.py` lines 1060-1069). -/
def default_transform (node : NodeRec) : Transform :=
  if node.space = "screen" then ⟨16, 16, 220, 90, none, some "topLeft"⟩
  else if node.payload.typeName = "text" then ⟨24, 18, 900, 60, none, some "topLeft"⟩
  else if node.payload.typeName = "qr" then ⟨0, 0, 280, 280, none, some "center"⟩
  else ⟨0, 0, 100, 50, none, some "topLeft"⟩

/-- The per-node merge of geometry and animation overlays
(`content_loader.py` lines 1046-1084).  The `borderRadius` default branch
(lines 1078-1082) is dead code: `_load_defaults` never returns that key. -/
def merge_node (geoms : AList Geom) (anims : AList AnimPair) (node : NodeRec) :
    NodeRec :=
  let node :=
    match alGet? geoms node.id with
    | some g =>
      let node := { node with space := g.space, transform := some g.transform }
      let node := match g.parentId with
        | some p => { node with parentId := some p }
        | none => node
      let node := match g.align with
        | some v => { node with align := some v }
        | none => node
      let node := match g.vAlign with
        | some v => { node with vAlign := some v }
        | none => node
      match g.fontPx with
      | some v => { node with fontPx := some v }
      | none => node
    | none => { node with transform := some (default_transform node) }
  match alGet? anims node.id with
  | some a =>
    let node := match a.appear with
      | some x => { node with appear := some x }
      | none => node
    match a.disappear with
    | some x => { node with disappear := some x }
    | none => node
  | none => node

/-- `load_presentation` (`content_loader.py` lines 1015-1106): resolve
defaults, parse the DSL (`presentation.pr` preferred over
`presentation.txt`), require `geometries.csv` and `animations.csv`, resolve
overlays, merge them into the nodes, and apply initial-view visibility. -/
def load_presentation (d : PresDir) : Except PErr Payload := do
  let defaults := load_defaults d.defaultsJson
  let content :=
    match d.presentationPr with
    | some c => some c
    | none => d.presentationTxt
  let (meta, _fsAfter) ←
    parse_presentation_txt defaults.designWidth defaults.designHeight content d.comp
  let geomContent ←
    match d.geometriesCsv with
    | some c => pure c
    | none => Except.error (.fileNotFound "geometries.csv")
  let animContent ←
    match d.animationsCsv with
    | some c => pure c
    | none => Except.error (.fileNotFound "animations.csv")
  let viewsById := meta.views.foldl (fun acc v => alSet acc v.id v) []
  let nodeViewHint := meta.views.foldl
    (fun acc v =>
      v.showList.foldl
        (fun acc nid => if alHas acc nid then acc else alSet acc nid v.id) acc)
    []
  let geoms ← parse_geometries_csv viewsById nodeViewHint defaults.designHeight geomContent
  let (anims, cues) ← parse_animations_csv animContent
  let nodes := meta.nodes.map (merge_node geoms anims)
  let initialView := meta.views.find? (fun v => v.id == meta.initialViewId)
  let showSet := (initialView.map (·.showList)).getD []
  let nodes := nodes.map (fun n =>
    if n.space = "screen" then { n with visible := some true }
    else { n with visible := some (n.id ∈ showSet) })
  .ok { id := meta.id, nodes := nodes, initialViewId := meta.initialViewId,
        views := meta.views, animationCues := cues, defaults := defaults }

/-! ### Serializer fragments (`content_writer.py`) -/

/-- `_safe_str` (`content_writer.py` lines 9-11): double quotes become
single quotes. -/
def safe_str (s : String) : String := replaceChar dqChar sqChar s

/-- Python `s.rstrip("\n")`. -/
def rstripNl (s : String) : String :=
  String.mk ((s.data.reverse.dropWhile (· = '\n')).reverse)

/-- `style_params` inside `write_presentation_txt`
(`content_writer.py` lines 194-205).  Values pass through `_safe_str` only —
not `_fmt_param_value` — so they are emitted unquoted whatever they contain. -/
def style_params_w (n : NodeRec) : List String :=
  let ps : List String := []
  let bg := (n.bgColor.getD "").trim
  let ps := if bg ≠ "" then ps ++ ["bgColor=" ++ safe_str bg] else ps
  let ps :=
    match n.bgAlpha with
    | some v => ps ++ ["bgAlpha=" ++ pyFloatRepr v]
    | none => ps
  match n.borderRadius with
  | some v => ps ++ ["borderRadius=" ++ pyFloatRepr v]
  | none => ps

/-- The `text` branch of `write_node` (`content_writer.py` lines 210-218):
the header line, the content lines (each through `_safe_str`), and a blank
separator line. -/
def write_text_node (n : NodeRec) : List String :=
  match n.payload with
  | .text content =>
    let params := ["name=" ++ n.id] ++ style_params_w n
    let header := "text[" ++ String.intercalate "," params ++ "]:"
    let content := rstripNl content
    [header] ++ (if content ≠ "" then (pySplitlines content).map safe_str else []) ++ [""]
  | _ => []

/-! ### Concrete inputs used by the verification -/

/-- A presentation directory whose DSL carries a quoted `bgColor="a,b"`
style value (loadable: the quoted comma is protected by the splitter). -/
def c1PresDir : PresDir :=
  { presentationTxt := some "view[name=home]:\ntext[name=t1,bgColor=\"a,b\"]:\nHello",
    geometriesCsv := some "id,view,x,y,w,h,rotationDeg,anchor,align\n",
    animationsCsv := some "id,when,how,from,durationMs,delayMs\n" }

/-- The end-to-end input of the specification: one view `home`, one text node
`t1`, a geometry row `t1,home,0,0,0.1,0.05,0,topLeft,`, `designHeight = 1000`. -/
def c2PresDir : PresDir :=
  { presentationTxt := some "view[name=home]:\ntext[name=t1]: Hello",
    geometriesCsv :=
      some "id,view,x,y,w,h,rotationDeg,anchor,align\nt1,home,0,0,0.1,0.05,0,topLeft,",
    animationsCsv := some "id,when,how,from,durationMs,delayMs\n",
    defaultsJson := some { designHeight := some 1000 } }

/-- A timer composite folder with user-edited `elements.txt` and
`geometries.csv` but a missing `animations.csv`. -/
def c5UserFolder : CompFolder :=
  { elements := some "# user-edited elements",
    geometries := some "id,view\n",
    animations := none }

/-- Composite filesystem holding `c5UserFolder` under `groups/timer1/`. -/
def c5Fs : Fs := { groups := [("timer1", c5UserFolder)] }

/-- A timer composite folder in which all three required files exist. -/
def c5FullFolder : CompFolder :=
  { elements := some "# user elements",
    geometries := some "# user geoms",
    animations := some "# user anims" }

/-- Composite filesystem holding `c5FullFolder` under `groups/timer1/`. -/
def c5FullFs : Fs := { groups := [("timer1", c5FullFolder)] }

/-- The node the C2 end-to-end scenario must produce: world transform
`{x:0, y:0, w:100, h:50}` and visible in the initial view. -/
def c2ExpectedT1 : NodeRec :=
  { id := "t1", space := "world", payload := .text "Hello",
    transform := some { x := 0, y := 0, w := 100, h := 50,
                        rotationDeg := some 0, anchor := some "topLeft" },
    visible := some true }

/-- The C2 geometry row as a `csv.DictReader` row dict. -/
def c2Row : Dict :=
  [("id", "t1"), ("view", "home"), ("x", "0"), ("y", "0"), ("w", "0.1"),
   ("h", "0.05"), ("rotationDeg", "0"), ("anchor", "topLeft"), ("align", "")]

/-- The view table of the C2 scenario (one `home` view at the origin). -/
def c2ViewsById : AList ViewRec :=
  [("home", { id := "home", camera := some ⟨0, 0, 1⟩, showList := ["t1"] })]

/-- The geometry record the C2 row resolves to at `designHeight = 1000`. -/
def c2Geom : Geom :=
  { space := "world", view := "home",
    transform := { x := 0, y := 0, w := 100, h := 50,
                   rotationDeg := some 0, anchor := some "topLeft" } }

/-! ### Association-list lemmas -/

theorem alGet_alSet_self {α : Type} (d : AList α) (k : String) (v : α) :
    alGet? (alSet d k v) k = some v := by
  induction d with
  | nil => simp [alSet, alGet?, List.find?]
  | cons kv rest ih =>
    obtain ⟨k', v'⟩ := kv
    by_cases hk : k' = k
    · subst hk
      simp [alSet, alGet?, List.find?]
    · simp only [alSet, if_neg hk]
      simpa [alGet?, List.find?, hk] using ih

theorem alSet_eq_of_get {α : Type} (d : AList α) (k : String) (v : α)
    (h : alGet? d k = some v) : alSet d k v = d := by
  induction d with
  | nil => simp [alGet?] at h
  | cons kv rest ih =>
    obtain ⟨k', v'⟩ := kv
    by_cases hk : k' = k
    · subst hk
      simp [alGet?, List.find?] at h
      simp [alSet, h]
    · have h' : alGet? rest k = some v := by
        simpa [alGet?, List.find?, hk] using h
      simp [alSet, hk, ih h']

/-! ### Splitter lemmas -/

theorem splitStep_comma (st : SplitSt) :
    splitStep st ',' =
      if ¬ st.inQuotes ∧ st.braceDepth = 0 ∧ st.bracketDepth = 0
          ∧ st.parenDepth = 0 then
        { st with parts := st.parts ++ [(String.mk st.buf).trim], buf := [] }
      else { st with buf := st.buf ++ [','] } := by
  have h1 : ¬ ((',' : Char) = dqChar) := by decide
  have h2 : ¬ ((',' : Char) = '{') := by decide
  have h3 : ¬ ((',' : Char) = '}') := by decide
  have h4 : ¬ ((',' : Char) = '[') := by decide
  have h5 : ¬ ((',' : Char) = ']') := by decide
  have h6 : ¬ ((',' : Char) = '(') := by decide
  have h7 : ¬ ((',' : Char) = ')') := by decide
  unfold splitStep
  by_cases hq : st.inQuotes
  · simp [h1, h2, h3, h4, h5, h6, h7, hq]
  · have hq' : st.inQuotes = false := by simpa using hq
    simp only [h1, h2, h3, h4, h5, h6, h7, hq', if_false, if_neg, ite_false,
      not_false_eq_true, ite_true, if_true, not_true_eq_false, false_and,
      and_false, true_and, not_false_iff]
    by_cases hb : st.braceDepth = 0 ∧ st.bracketDepth = 0 ∧ st.parenDepth = 0
    · simp [hb, hq']
    · simp [hb, hq']

/-! ### Claim theorems -/

/-- C9: the parameter splitter treats a comma as a field separator only when
it is not inside a double-quoted literal and the nesting depths of `{`, `[`
and `(` are all zero — at any other state the comma is ordinary buffered
text — and in particular the parameter string `choices={A:red,B:blue},type=pie`
splits into exactly two fields, `choices` and `type`. -/
theorem C9_quote_aware_splitting :
    (∀ st : SplitSt,
      ((st.inQuotes = true ∨ st.braceDepth ≠ 0 ∨ st.bracketDepth ≠ 0
          ∨ st.parenDepth ≠ 0) →
        splitStep st ',' = { st with buf := st.buf ++ [','] })
      ∧ ((st.inQuotes = false ∧ st.braceDepth = 0 ∧ st.bracketDepth = 0
          ∧ st.parenDepth = 0) →
        splitStep st ',' =
          { st with parts := st.parts ++ [(String.mk st.buf).trim], buf := [] }))
    ∧ parse_params "choices={A:red,B:blue},type=pie" =
        [("choices", "{A:red,B:blue}"), ("type", "pie")] := by
  constructor
  · intro st
    constructor
    · intro h
      rw [splitStep_comma]
      apply if_neg
      rintro ⟨hq, h1, h2, h3⟩
      rcases h with h | h | h | h
      · exact hq h
      · exact h h1
      · exact h h2
      · exact h h3
    · intro h
      rw [splitStep_comma]
      apply if_pos
      exact ⟨by simp [h.1], h.2.1, h.2.2.1, h.2.2.2⟩
  · with_unfolding_all decide

/-- Witness for C9 at a concrete non-top-level splitter state (inside
quotes): the comma is buffered, not a separator. -/
theorem C9_quote_aware_splitting_witness :
    splitStep ⟨['a'], true, 0, 0, 0, []⟩ ',' = ⟨['a', ','], true, 0, 0, 0, []⟩ :=
  (C9_quote_aware_splitting.1 ⟨['a'], true, 0, 0, 0, []⟩).1 (Or.inl rfl)

theorem timer_bin_check_cases (name : String) (mn mx bs : ℚ) :
    timer_bin_check name (some mn) (some mx) (some bs) = .ok ()
    ∨ timer_bin_check name (some mn) (some mx) (some bs) =
        .error (.timerBins name (mx - mn) bs) := by
  simp only [timer_bin_check]
  split_ifs <;> simp

theorem timer_bin_check_ok (name : String) (mn mx bs : ℚ) (hbs : bs > 0)
    (h : timer_bin_check name (some mn) (some mx) (some bs) = .ok ()) :
    ∃ k : ℤ, 0 ≤ k ∧ |(mx - mn) / bs - (k : ℚ)| ≤ 1 / 1000000 := by
  simp only [timer_bin_check, if_pos hbs] at h
  by_cases hspan : mx - mn > 0
  · rw [if_pos hspan] at h
    by_cases hc : (mx - mn) / bs ≤ 0
        ∨ |(mx - mn) / bs - (pyRound ((mx - mn) / bs) : ℚ)| > 1 / 1000000
    · rw [if_pos hc] at h
      exact absurd h (by simp)
    · push_neg at hc
      obtain ⟨hpos, hnear⟩ := hc
      refine ⟨pyRound ((mx - mn) / bs), ?_, hnear⟩
      have h1 : (mx - mn) / bs - (pyRound ((mx - mn) / bs) : ℚ) ≤ 1 / 1000000 :=
        (abs_le.mp hnear).2
      have h2 : ((pyRound ((mx - mn) / bs) : ℤ) : ℚ) > -1 := by linarith
      have h3 : pyRound ((mx - mn) / bs) > (-1 : ℤ) := by exact_mod_cast h2
      omega
  · rw [if_neg hspan, if_pos (Or.inl le_rfl)] at h
    exact absurd h (by simp)

theorem timer_bin_check_err (name : String) (mn mx bs : ℚ) (hbs : bs > 0)
    (h : ¬ ∃ k : ℤ, 0 ≤ k ∧ |(mx - mn) / bs - (k : ℚ)| ≤ 1 / 1000000) :
    timer_bin_check name (some mn) (some mx) (some bs) =
      .error (.timerBins name (mx - mn) bs) := by
  rcases timer_bin_check_cases name mn mx bs with hok | herr
  · exact absurd (timer_bin_check_ok name mn mx bs hbs hok) h
  · exact herr

/-- C3: a timer block supplying all three of `min`, `max` and `binSize` with
`binSize > 0` passes validation only when `(max-min)/binSize` is within
`1e-6` of a non-negative integer; otherwise it raises the error carrying the
node id and the computed span and bin values.  In particular
`min=0, max=10, binSize=3` is rejected (also through the full block parser)
while `min=0, max=10, binSize=2` is accepted. -/
theorem C3_timer_bin_validation :
    (∀ (name : String) (mn mx bs : ℚ), bs > 0 →
      (timer_bin_check name (some mn) (some mx) (some bs) = .ok () →
        ∃ k : ℤ, 0 ≤ k ∧ |(mx - mn) / bs - (k : ℚ)| ≤ 1 / 1000000)
      ∧ ((¬ ∃ k : ℤ, 0 ≤ k ∧ |(mx - mn) / bs - (k : ℚ)| ≤ 1 / 1000000) →
        timer_bin_check name (some mn) (some mx) (some bs) =
          .error (.timerBins name (mx - mn) bs)))
    ∧ timer_bin_check "tm" (some 0) (some 10) (some 3) =
        .error (.timerBins "tm" 10 3)
    ∧ timer_bin_check "tm" (some 0) (some 10) (some 2) = .ok ()
    ∧ parse_presentation_txt 1920 1080
        (some "view[name=home]:\ntimer[name=tm,min=0,max=10,binSize=3]") {} =
        .error (.timerBins "tm" 10 3)
    ∧ (parse_presentation_txt 1920 1080
        (some "view[name=home]:\ntimer[name=tm,min=0,max=10,binSize=2]") {}).toOption.isSome
        = true := by
  refine ⟨?_, ?_, ?_, ?_, ?_⟩
  · intro name mn mx bs hbs
    exact ⟨timer_bin_check_ok name mn mx bs hbs, timer_bin_check_err name mn mx bs hbs⟩
  · with_unfolding_all decide
  · with_unfolding_all decide
  · with_unfolding_all decide
  · with_unfolding_all decide

/-- Witness for C3: at `min=0, max=10, binSize=2` validation succeeds, so the
theorem yields a non-negative integer bin count within tolerance. -/
theorem C3_timer_bin_validation_witness :
    ∃ k : ℤ, 0 ≤ k ∧ |((10 : ℚ) - 0) / 2 - (k : ℚ)| ≤ 1 / 1000000 :=
  (C3_timer_bin_validation.1 "tm" 0 10 2 (by norm_num)).1
    (by with_unfolding_all decide)

/-- C10: with neither `presentation.pr` nor `presentation.txt` present,
parsing does not raise — it yields the empty presentation with
`initialViewId = "home"`, no views and no nodes — while the overall load
still fails with a file-not-found error when `geometries.csv` or
`animations.csv` is absent. -/
theorem C10_missing_presentation_file :
    (∀ (designW designH : ℚ) (fs : Fs),
      parse_presentation_txt designW designH none fs =
        .ok ({ id := "default", initialViewId := "home", views := [], nodes := [] }, fs))
    ∧ (∀ d : PresDir, d.presentationPr = none → d.presentationTxt = none →
        d.geometriesCsv = none →
        load_presentation d = .error (.fileNotFound "geometries.csv"))
    ∧ (∀ (d : PresDir) (c : String), d.presentationPr = none →
        d.presentationTxt = none → d.geometriesCsv = some c →
        d.animationsCsv = none →
        load_presentation d = .error (.fileNotFound "animations.csv")) := by
  refine ⟨fun _ _ _ => rfl, ?_, ?_⟩
  · intro d h1 h2 h3
    simp [load_presentation, h1, h2, h3, parse_presentation_txt, bind, Except.bind]
  · intro d c h1 h2 h3 h4
    simp [load_presentation, h1, h2, h3, h4, parse_presentation_txt, bind,
      Except.bind, pure, Except.pure]

/-- Witness for C10 on the empty presentation directory. -/
theorem C10_missing_presentation_file_witness :
    load_presentation {} = .error (.fileNotFound "geometries.csv") :=
  C10_missing_presentation_file.2.1 {} rfl rfl rfl

/-- C6 counterexample: `view[name=home,cx=]` carries the camera-related
parameter `cx` (with an empty value) on the first view, yet parsing succeeds
and assigns camera `(0,0,1)` — the parameter is silently ignored, not
rejected. -/
theorem C6_counterexample :
    parse_presentation_txt 1920 1080 (some "view[name=home,cx=]") {} =
      .ok ({ id := "default", initialViewId := "home",
             views := [{ id := "home", camera := some ⟨0, 0, 1⟩, showList := [],
                         screen := false, cameraSpec := none, transitionMs := none }],
             nodes := [] }, {})
    ∧ alGet? (parse_params "name=home,cx=") "cx" = some "" := by
  constructor
  · with_unfolding_all decide
  · with_unfolding_all decide

/-- C6 (amended): the first view authored is always assigned camera
`(0,0,1)`, and any parameter other than `name` carrying a non-blank value is
a hard parse error; camera parameters present with an empty value are
silently ignored. -/
theorem C6_first_view_camera :
    ∀ params : Dict,
      ((∀ kv ∈ params, kv.1 = "name" ∨ kv.2.trim = "") →
        first_view_check params = .ok ⟨0, 0, 1⟩)
      ∧ ((∃ kv ∈ params, kv.1 ≠ "name" ∧ kv.2.trim ≠ "") →
        ∃ keys, first_view_check params = .error (.firstViewParams keys)) := by
  intro params
  constructor
  · intro h
    have hf : params.filter (fun kv => kv.1 ≠ "name" ∧ kv.2.trim ≠ "") = [] := by
      rw [List.filter_eq_nil_iff]
      intro kv hkv hdec
      simp only [decide_eq_true_eq] at hdec
      rcases h kv hkv with h' | h'
      · exact hdec.1 h'
      · exact hdec.2 h'
    simp only [first_view_check]
    rw [hf]
    simp
  · rintro ⟨kv, hkv, hname, hval⟩
    have hne : params.filter (fun kv => kv.1 ≠ "name" ∧ kv.2.trim ≠ "") ≠ [] := by
      intro hnil
      have := List.filter_eq_nil_iff.mp hnil kv hkv
      simp [hname, hval] at this
    refine ⟨sortStrings (alKeys (params.filter
      (fun kv => kv.1 ≠ "name" ∧ kv.2.trim ≠ ""))), ?_⟩
    simp only [first_view_check]
    rw [if_pos hne]

/-- Witness for C6: a first view whose only parameter is `name` resolves to
the origin camera. -/
theorem C6_first_view_camera_witness :
    first_view_check [("name", "home")] = .ok ⟨0, 0, 1⟩ :=
  (C6_first_view_camera [("name", "home")]).1
    (by intro kv hkv; simp at hkv; simp [hkv])

/-- C4 counterexample: the non-first view block
`view[name=v2,cx=10,cy=0,zoom=2]` raises the missing-refView error — whose
message mentions neither "Legacy" nor any of the legacy parameter names —
and not the legacy migration-hint error the claim promises. -/
theorem C4_counterexample :
    parse_presentation_txt 1920 1080
        (some "view[name=home]:\nview[name=v2,cx=10,cy=0,zoom=2]") {} =
      .error .missingRefView
    ∧ PErr.missingRefView ≠ PErr.legacyViewParams
    ∧ strHasSub "Legacy" (pErrMsg .missingRefView) = false
    ∧ strHasSub "cx" (pErrMsg .missingRefView) = false
    ∧ strHasSub "cy" (pErrMsg .missingRefView) = false
    ∧ strHasSub "zoom" (pErrMsg .missingRefView) = false := by
  refine ⟨?_, ?_, ?_, ?_, ?_, ?_⟩ <;> with_unfolding_all decide

/-- C4 (amended): a non-first view carrying any legacy absolute camera
parameter (`cx`, `cy`, `zoom` or `ref` with a non-blank value) always raises
an error — the legacy migration-hint error when a known `refView` is also
supplied, and the missing-refView/unknown-refView error otherwise — and never
silently resolves to a camera. -/
theorem C4_legacy_rejection :
    ∀ (designW designH : ℚ) (cams : AList Cam) (params : Dict),
      ((getS params "cx").trim ≠ "" ∨ (getS params "cy").trim ≠ ""
        ∨ (getS params "zoom").trim ≠ "" ∨ (getS params "ref").trim ≠ "") →
      (∃ e, resolve_subsequent_view designW designH cams params = .error e)
      ∧ (∀ base, (getS params "refView").trim ≠ "" →
          alGet? cams ((getS params "refView").trim) = some base →
          resolve_subsequent_view designW designH cams params =
            .error .legacyViewParams) := by
  intro dW dH cams params hleg
  have hres : ∀ base, resolve_view_camera dW dH params base = .error .legacyViewParams := by
    intro base
    simp only [resolve_view_camera]
    rw [if_pos hleg]
  constructor
  · by_cases href : (getS params "refView").trim = ""
    · exact ⟨.missingRefView, by simp [resolve_subsequent_view, href]⟩
    · cases hbase : alGet? cams ((getS params "refView").trim) with
      | none =>
        refine ⟨.unknownRefView ((getS params "refView").trim)
          (sortStrings (alKeys cams)), ?_⟩
        simp [resolve_subsequent_view, href, hbase]
      | some base =>
        exact ⟨.legacyViewParams,
          by simp [resolve_subsequent_view, href, hbase, hres]⟩
  · intro base href hbase
    simp [resolve_subsequent_view, href, hbase, hres]

/-- Witness for C4: `view[name=v2,refView=home,cx=10]` (valid refView plus a
legacy parameter) raises the legacy migration-hint error. -/
theorem C4_legacy_rejection_witness :
    resolve_subsequent_view 1920 1080 [("home", ⟨0, 0, 1⟩)]
        [("name", "v2"), ("refView", "home"), ("cx", "10")] =
      .error .legacyViewParams :=
  (C4_legacy_rejection 1920 1080 [("home", ⟨0, 0, 1⟩)]
      [("name", "v2"), ("refView", "home"), ("cx", "10")]
      (Or.inl (by with_unfolding_all decide))).2 ⟨0, 0, 1⟩
      (by with_unfolding_all decide) (by with_unfolding_all decide)

set_option maxRecDepth 8000 in
/-- C5 counterexample: with `groups/timer1/` holding a user-edited
`elements.txt` and `geometries.csv` but no `animations.csv`, a load's timer
materialization overwrites the existing `elements.txt` with the built-in
default. -/
theorem C5_counterexample :
    (ensure_timer_composite_defaults c5Fs "timer1").map
        (fun fs => (alGet? fs.groups "timer1").map (·.elements))
      = .ok (some (some timer_default_elements))
    ∧ timer_default_elements ≠ "# user-edited elements" := by
  constructor
  · with_unfolding_all decide
  · with_unfolding_all decide

/-- C5 (amended): choices materialization never overwrites an existing file —
it only creates the missing ones — and timer materialization leaves the
filesystem unchanged once all three required files exist; but when any
required timer file is missing, all three are rewritten with defaults,
overwriting existing files (per the counterexample). -/
theorem C5_materialization_no_overwrite :
    (∀ (fs : Fs) (name : String) (f : CompFolder),
      validCompositeName name = true →
      alGet? fs.groups name = some f →
      f.elements.isSome → f.geometries.isSome → f.animations.isSome →
      ensure_timer_composite_defaults fs name = .ok fs)
    ∧ (∀ (fs : Fs) (name : String) (fs' : Fs) (f : CompFolder),
        ensure_choices_composite_defaults fs name = .ok fs' →
        alGet? fs.groups name = some f →
        ∃ f', alGet? fs'.groups name = some f'
          ∧ (∀ c, f.elements = some c → f'.elements = some c)
          ∧ (∀ c, f.geometries = some c → f'.geometries = some c)
          ∧ (∀ c, f.bulletsGeometries = some c → f'.bulletsGeometries = some c)
          ∧ (∀ c, f.wheelGeometries = some c → f'.wheelGeometries = some c)) := by
  constructor
  · intro fs name f hvalid hget he hg ha
    simp only [ensure_timer_composite_defaults]
    rw [if_neg (by simp [hvalid])]
    cases hleg : alGet? fs.legacy name with
    | none =>
      simp only [hget, Option.getD_some]
      rw [if_pos ⟨he, hg, ha⟩, alSet_eq_of_get fs.groups name f hget]
    | some lf =>
      simp only [hget, Option.getD_some]
      rw [if_pos ⟨he, hg, ha⟩, alSet_eq_of_get fs.groups name f hget]
  · intro fs name fs' f h hget
    simp only [ensure_choices_composite_defaults] at h
    by_cases hv : validCompositeName name = true
    · rw [if_neg (by simp [hv]), hget] at h
      simp only [Option.getD_some] at h
      have hfs' := (Except.ok.inj h).symm
      subst hfs'
      refine ⟨_, alGet_alSet_self _ _ _, ?_, ?_, ?_, ?_⟩
      · intro c hc; simp [hc]
      · intro c hc; simp [hc]
      · intro c hc; simp [hc]
      · intro c hc; simp [hc]
    · rw [if_pos (by simpa using hv)] at h
      exact absurd h (by simp)

/-- Witness for C5: once all three required timer files exist, the timer
materializer is the identity on the filesystem. -/
theorem C5_materialization_no_overwrite_witness :
    ensure_timer_composite_defaults c5FullFs "timer1" = .ok c5FullFs :=
  C5_materialization_no_overwrite.1 c5FullFs "timer1" c5FullFolder
    (by with_unfolding_all decide) (by with_unfolding_all decide)
    (by with_unfolding_all decide) (by with_unfolding_all decide)
    (by with_unfolding_all decide)

/-- C1 (round-trip defect): a successful load can produce a text node whose
`bgColor` is `"a,b"`; the serializer's `style_params` emits the value through
`_safe_str` only — unquoted, contradicting the quoting rule `_fmt_param_value`
documents — so the emitted header `text[name=t1,bgColor=a,b]:` re-parses with
`bgColor = "a"`: `parse(serialize(graph))` does not preserve the attribute. -/
theorem C1_roundtrip_quoting_bug :
    ((load_presentation c1PresDir).map
        (fun p => p.nodes.map (fun n => (n.id, n.bgColor))))
      = .ok [("t1", some "a,b")]
    ∧ ((load_presentation c1PresDir).map (fun p => p.nodes.map write_text_node))
      = .ok [["text[name=t1,bgColor=a,b]:", "Hello", ""]]
    ∧ headerMatch "text[name=t1,bgColor=a,b]:" =
        some ("text", "name=t1,bgColor=a,b", "")
    ∧ alGet? (parse_params "name=t1,bgColor=a,b") "bgColor" = some "a"
    ∧ (some "a" : Option String) ≠ some "a,b" := by
  refine ⟨?_, ?_, ?_, ?_, ?_⟩ <;> with_unfolding_all decide

theorem C2_root_geometry_formula (viewsById : AList ViewRec)
    (hint : AList String) (designH : ℚ) (row : Dict) (nodeId : String)
    (g : Geom) (hpar : (getS row "parent").trim = "")
    (h : process_geom_row viewsById hint designH row = .ok (some (nodeId, g))) :
    ∃ xn yn wn hn : ℚ,
      numField row "x" 0 = .ok xn ∧ numField row "y" 0 = .ok yn
      ∧ numField row "w" (1/5) = .ok wn ∧ numField row "h" (1/10) = .ok hn
      ∧ g.transform.x =
          (rowCam (rowView viewsById (rowViewId hint row nodeId))).cx + xn * designH
      ∧ g.transform.y =
          (rowCam (rowView viewsById (rowViewId hint row nodeId))).cy + yn * designH
      ∧ g.transform.w = wn * designH
      ∧ g.transform.h = hn * designH := by
  simp only [process_geom_row, bind, Except.bind, pure, Except.pure] at h
  by_cases hid : (getS row "id").trim = ""
  · rw [if_pos hid] at h
    simp at h
  · rw [if_neg hid] at h
    rw [hpar] at h
    cases hx : numField row "x" 0 with
    | error e => rw [hx] at h; simp at h
    | ok xn =>
    rw [hx] at h
    cases hy : numField row "y" 0 with
    | error e => rw [hy] at h; simp at h
    | ok yn =>
    rw [hy] at h
    cases hw : numField row "w" (1/5) with
    | error e => rw [hw] at h; simp at h
    | ok wn =>
    rw [hw] at h
    cases hh : numField row "h" (1/10) with
    | error e => rw [hh] at h; simp at h
    | ok hn =>
    rw [hh] at h
    cases hfh : numField row "fontH" (-1) with
    | error e => rw [hfh] at h; simp at h
    | ok fh =>
    rw [hfh] at h
    simp only [] at h
    refine ⟨xn, yn, wn, hn, rfl, rfl, rfl, rfl, ?_, ?_, ?_, ?_⟩ <;>
    · by_cases hr : (getS row "rotationDeg").trim ≠ ""
      · rw [if_pos hr] at h
        cases hpf : pyFloat? ((getS row "rotationDeg").trim) with
        | none => rw [hpf] at h; simp at h
        | some rv =>
          rw [hpf] at h
          simp only [] at h
          simp only [Except.ok.injEq, Option.some.injEq, Prod.mk.injEq] at h
          obtain ⟨hnid, hg⟩ := h
          subst hnid
          subst hg
          simp
      · rw [if_neg hr] at h
        simp only [Except.ok.injEq, Option.some.injEq, Prod.mk.injEq] at h
        obtain ⟨hnid, hg⟩ := h
        subst hnid
        subst hg
        simp

/-- C2: for every geometry row whose `parent` column is empty, the resolver
converts view-relative coordinates to world pixels as
`worldX = viewCenterX + x·designHeight`, `worldY = viewCenterY + y·designHeight`,
`worldW = w·designHeight`, `worldH = h·designHeight`; and the end-to-end
scenario — `view[name=home]:` containing `text[name=t1]: Hello`, geometry row
`t1,home,0,0,0.1,0.05,0,topLeft,`, `designHeight = 1000` — yields node `t1`
with world transform `{x:0, y:0, w:100, h:50}` and `visible = true`. -/
theorem C2_geometry_conversion :
    (∀ (viewsById : AList ViewRec) (hint : AList String) (designH : ℚ)
        (row : Dict) (nodeId : String) (g : Geom),
      (getS row "parent").trim = "" →
      process_geom_row viewsById hint designH row = .ok (some (nodeId, g)) →
      ∃ xn yn wn hn : ℚ,
        numField row "x" 0 = .ok xn ∧ numField row "y" 0 = .ok yn
        ∧ numField row "w" (1/5) = .ok wn ∧ numField row "h" (1/10) = .ok hn
        ∧ g.transform.x =
            (rowCam (rowView viewsById (rowViewId hint row nodeId))).cx + xn * designH
        ∧ g.transform.y =
            (rowCam (rowView viewsById (rowViewId hint row nodeId))).cy + yn * designH
        ∧ g.transform.w = wn * designH
        ∧ g.transform.h = hn * designH)
    ∧ (load_presentation c2PresDir).map (fun p => p.nodes) = .ok [c2ExpectedT1]
    ∧ c2ExpectedT1.transform =
        some { x := 0, y := 0, w := 100, h := 50, rotationDeg := some 0,
               anchor := some "topLeft" }
    ∧ c2ExpectedT1.visible = some true := by
  refine ⟨C2_root_geometry_formula, ?_, ?_, ?_⟩
  · with_unfolding_all decide
  · with_unfolding_all decide
  · with_unfolding_all decide

/-- Witness for C2 at the concrete scenario row (`designHeight = 1000`). -/
theorem C2_geometry_conversion_witness :
    ∃ xn yn wn hn : ℚ,
      numField c2Row "x" 0 = .ok xn ∧ numField c2Row "y" 0 = .ok yn
      ∧ numField c2Row "w" (1/5) = .ok wn ∧ numField c2Row "h" (1/10) = .ok hn
      ∧ c2Geom.transform.x =
          (rowCam (rowView c2ViewsById (rowViewId [] c2Row "t1"))).cx + xn * 1000
      ∧ c2Geom.transform.y =
          (rowCam (rowView c2ViewsById (rowViewId [] c2Row "t1"))).cy + yn * 1000
      ∧ c2Geom.transform.w = wn * 1000
      ∧ c2Geom.transform.h = hn * 1000 :=
  C2_geometry_conversion.1 c2ViewsById [] 1000 c2Row "t1" c2Geom
    (by with_unfolding_all decide) (by with_unfolding_all decide)

/-- C7: every successfully resolved world view after the first keeps the
referenced view's stored zoom unchanged, and the `loc` placement only
translates `cx`/`cy` by integer multiples (−1, 0 or +1) of twice the camera
half-extents. -/
theorem C7_zoom_translation (designW designH : ℚ) (cams : AList Cam)
    (params : Dict) (cam : Cam) (spec : Option CamSpec) (base : Cam)
    (hbase : alGet? cams ((getS params "refView").trim) = some base)
    (hz : base.zoom ≠ 0)
    (h : resolve_subsequent_view designW designH cams params = .ok (cam, spec)) :
    cam.zoom = base.zoom
    ∧ ∃ kx ky : ℤ, kx.natAbs ≤ 1 ∧ ky.natAbs ≤ 1
      ∧ cam.cx = base.cx + (kx : ℚ) * (2 * (half_extents designW designH base).1)
      ∧ cam.cy = base.cy + (ky : ℚ) * (2 * (half_extents designW designH base).2) := by
  simp only [resolve_subsequent_view] at h
  by_cases href : (getS params "refView").trim = ""
  · rw [if_pos href] at h
    simp at h
  · rw [if_neg href, hbase] at h
    simp only [resolve_view_camera] at h
    by_cases hleg : (getS params "cx").trim ≠ "" ∨ (getS params "cy").trim ≠ ""
        ∨ (getS params "zoom").trim ≠ "" ∨ (getS params "ref").trim ≠ ""
    · rw [if_pos hleg] at h
      simp at h
    · rw [if_neg hleg, if_neg hz] at h
      rw [show (⟨base.cx, base.cy, base.zoom⟩ : Cam) = base from rfl] at h
      by_cases hloc : (getS params "loc").trim ≠ ""
      · rw [if_pos hloc] at h
        by_cases hcen :
            lowerS (removeChar '-' (removeChar '_' ((getS params "loc").trim)))
                = "center"
            ∨ lowerS (removeChar '-' (removeChar '_' ((getS params "loc").trim)))
                = "origin"
        · rw [if_pos hcen] at h
          simp only [Except.ok.injEq, Prod.mk.injEq] at h
          obtain ⟨hcam, _⟩ := h
          refine ⟨by rw [← hcam], 0, 0, by simp, by simp, ?_, ?_⟩
          · rw [← hcam]; simp
          · rw [← hcam]; simp
        · rw [if_neg hcen] at h
          simp only [Except.ok.injEq, Prod.mk.injEq] at h
          obtain ⟨hcam, _⟩ := h
          have hcx : cam.cx = base.cx +
              ((if strHasSub "right"
                    (lowerS (removeChar '-' (removeChar '_' ((getS params "loc").trim))))
                  then 2 * (half_extents designW designH base).1 else 0)
                - (if strHasSub "left"
                    (lowerS (removeChar '-' (removeChar '_' ((getS params "loc").trim))))
                  then 2 * (half_extents designW designH base).1 else 0)) := by
            rw [← hcam]
          have hcy : cam.cy = base.cy +
              ((if strHasSub "bottom"
                    (lowerS (removeChar '-' (removeChar '_' ((getS params "loc").trim))))
                  ∨ strHasSub "down"
                    (lowerS (removeChar '-' (removeChar '_' ((getS params "loc").trim))))
                  then 2 * (half_extents designW designH base).2 else 0)
                - (if strHasSub "top"
                    (lowerS (removeChar '-' (removeChar '_' ((getS params "loc").trim))))
                  ∨ strHasSub "up"
                    (lowerS (removeChar '-' (removeChar '_' ((getS params "loc").trim))))
                  then 2 * (half_extents designW designH base).2 else 0)) := by
            rw [← hcam]
          have hkx : ∃ kx : ℤ, kx.natAbs ≤ 1
              ∧ cam.cx = base.cx + (kx : ℚ) * (2 * (half_extents designW designH base).1) := by
            by_cases hR : strHasSub "right"
                (lowerS (removeChar '-' (removeChar '_' ((getS params "loc").trim)))) = true
            · by_cases hLf : strHasSub "left"
                  (lowerS (removeChar '-' (removeChar '_' ((getS params "loc").trim)))) = true
              · exact ⟨0, by decide, by rw [hcx, if_pos hR, if_pos hLf]; push_cast; ring⟩
              · exact ⟨1, by decide, by rw [hcx, if_pos hR, if_neg hLf]; push_cast; ring⟩
            · by_cases hLf : strHasSub "left"
                  (lowerS (removeChar '-' (removeChar '_' ((getS params "loc").trim)))) = true
              · exact ⟨-1, by decide, by rw [hcx, if_neg hR, if_pos hLf]; push_cast; ring⟩
              · exact ⟨0, by decide, by rw [hcx, if_neg hR, if_neg hLf]; push_cast; ring⟩
          have hky : ∃ ky : ℤ, ky.natAbs ≤ 1
              ∧ cam.cy = base.cy + (ky : ℚ) * (2 * (half_extents designW designH base).2) := by
            by_cases hB : (strHasSub "bottom"
                  (lowerS (removeChar '-' (removeChar '_' ((getS params "loc").trim)))) = true
                ∨ strHasSub "down"
                  (lowerS (removeChar '-' (removeChar '_' ((getS params "loc").trim)))) = true)
            · by_cases hT : (strHasSub "top"
                    (lowerS (removeChar '-' (removeChar '_' ((getS params "loc").trim)))) = true
                  ∨ strHasSub "up"
                    (lowerS (removeChar '-' (removeChar '_' ((getS params "loc").trim)))) = true)
              · exact ⟨0, by decide, by rw [hcy, if_pos hB, if_pos hT]; push_cast; ring⟩
              · exact ⟨1, by decide, by rw [hcy, if_pos hB, if_neg hT]; push_cast; ring⟩
            · by_cases hT : (strHasSub "top"
                    (lowerS (removeChar '-' (removeChar '_' ((getS params "loc").trim)))) = true
                  ∨ strHasSub "up"
                    (lowerS (removeChar '-' (removeChar '_' ((getS params "loc").trim)))) = true)
              · exact ⟨-1, by decide, by rw [hcy, if_neg hB, if_pos hT]; push_cast; ring⟩
              · exact ⟨0, by decide, by rw [hcy, if_neg hB, if_neg hT]; push_cast; ring⟩
          obtain ⟨kx, hkx1, hkx2⟩ := hkx
          obtain ⟨ky, hky1, hky2⟩ := hky
          exact ⟨by rw [← hcam], kx, ky, hkx1, hky1, hkx2, hky2⟩
      · rw [if_neg (by simpa using hloc)] at h
        simp at h

set_option maxRecDepth 8000 in
/-- Witness for C7: `refView=home, loc=right` at design 1920×1080 keeps
zoom 1 and translates `cx` by one full camera width. -/
theorem C7_zoom_translation_witness :
    (⟨1920, 0, 1⟩ : Cam).zoom = (⟨0, 0, 1⟩ : Cam).zoom
    ∧ ∃ kx ky : ℤ, kx.natAbs ≤ 1 ∧ ky.natAbs ≤ 1
      ∧ (⟨1920, 0, 1⟩ : Cam).cx = (⟨0, 0, 1⟩ : Cam).cx
          + (kx : ℚ) * (2 * (half_extents 1920 1080 ⟨0, 0, 1⟩).1)
      ∧ (⟨1920, 0, 1⟩ : Cam).cy = (⟨0, 0, 1⟩ : Cam).cy
          + (ky : ℚ) * (2 * (half_extents 1920 1080 ⟨0, 0, 1⟩).2) :=
  C7_zoom_translation 1920 1080 [("home", ⟨0, 0, 1⟩)]
    [("name", "v2"), ("refView", "home"), ("loc", "right")]
    ⟨1920, 0, 1⟩ (some { refView := some "home", loc := some "right" }) ⟨0, 0, 1⟩
    (by with_unfolding_all decide) (by with_unfolding_all decide)
    (by with_unfolding_all decide)

/-- C8: an animations.csv row with non-empty id whose `how` is `none` or
whose `when` is outside `{enter, exit}` is silently dropped with no cue; a
row with `when ∈ {enter, exit}` and `how = direct` is a hard error; a row
with `when ∈ {enter, exit}` and a `how` outside
`{sudden, fade, pixelate, appear}` is a hard error naming the node id and
the offending value. -/
theorem C8_animation_row_filtering :
    ∀ row : Dict,
      (getS row "id").trim ≠ "" →
      ((orS (lowerS (getS row "how").trim) "none" = "none"
          ∨ (lowerS (getS row "when").trim ≠ "enter"
             ∧ lowerS (getS row "when").trim ≠ "exit")) →
        process_anim_row row = .ok none)
      ∧ ((lowerS (getS row "when").trim = "enter"
            ∨ lowerS (getS row "when").trim = "exit") →
          orS (lowerS (getS row "how").trim) "none" = "direct" →
          process_anim_row row = .error (.howDirect ((getS row "id").trim)))
      ∧ ((lowerS (getS row "when").trim = "enter"
            ∨ lowerS (getS row "when").trim = "exit") →
          orS (lowerS (getS row "how").trim) "none" ≠ "none" →
          ¬ (orS (lowerS (getS row "how").trim) "none" = "sudden"
             ∨ orS (lowerS (getS row "how").trim) "none" = "fade"
             ∨ orS (lowerS (getS row "how").trim) "none" = "pixelate"
             ∨ orS (lowerS (getS row "how").trim) "none" = "appear") →
          orS (lowerS (getS row "how").trim) "none" ≠ "direct" →
          process_anim_row row =
            .error (.howUnsupported ((getS row "id").trim)
              (orS (lowerS (getS row "how").trim) "none"))) := by
  intro row hid
  have hskipn : ∀ hwhen : lowerS (getS row "when").trim = "enter"
        ∨ lowerS (getS row "when").trim = "exit",
      ∀ hnone : orS (lowerS (getS row "how").trim) "none" ≠ "none",
      ¬ (orS (lowerS (getS row "how").trim) "none" = "none"
        ∨ (lowerS (getS row "when").trim ≠ "enter"
           ∧ lowerS (getS row "when").trim ≠ "exit")) := by
    rintro hwhen hnone (hn | ⟨he, hx⟩)
    · exact hnone hn
    · rcases hwhen with h' | h'
      · exact he h'
      · exact hx h'
  refine ⟨?_, ?_, ?_⟩
  · intro hskip
    simp only [process_anim_row, bind, Except.bind, pure, Except.pure]
    rw [if_neg hid, if_pos hskip]
  · intro hwhen hdir
    have hnone : orS (lowerS (getS row "how").trim) "none" ≠ "none" := by
      rw [hdir]
      decide
    simp only [process_anim_row, bind, Except.bind, pure, Except.pure]
    rw [if_neg hid, if_neg (hskipn hwhen hnone), if_pos hdir]
  · intro hwhen hnone hnotallowed hndir
    simp only [process_anim_row, bind, Except.bind, pure, Except.pure]
    rw [if_neg hid, if_neg (hskipn hwhen hnone), if_neg hndir,
      if_pos hnotallowed]

/-- Witness for C8: the row `(n1, enter, direct)` raises the hard
`how=direct` error. -/
theorem C8_animation_row_filtering_witness :
    process_anim_row [("id", "n1"), ("when", "enter"), ("how", "direct")] =
      .error (.howDirect "n1") := by
  have h := (C8_animation_row_filtering
      [("id", "n1"), ("when", "enter"), ("how", "direct")]
      (by with_unfolding_all decide)).2.1
      (Or.inl (by with_unfolding_all decide)) (by with_unfolding_all decide)
  rw [show ((getS [("id", "n1"), ("when", "enter"), ("how", "direct")] "id").trim)
      = "n1" from by with_unfolding_all decide] at h
  exact h

end ContentCore
